import Mathlib

/-!
Shallow embedding of the ReTrade marketplace web application (Next.js server
actions over a Postgres schema accessed through drizzle-orm).

The database is modelled as explicit lists of rows, one list per table of
src/db/schema.ts.  Each server action becomes a pure function from the current
database (plus the request's inputs) to the new database and a result value;
a thrown exception or a returned `{success:false, error}` both become
`ActionResult.error`.  SQL `select ... limit 1` becomes `List.find?`,
`insert` an append, `update ... where` a `List.map` with a conditional,
`delete ... where` a `List.filter`, an inner join a `flatMap` over the joined
table, and `ORDER BY key DESC` a sort by the key (`List.insertionSort`).

Monetary amounts (`decimal` columns, JS numbers) are modelled as `Int`,
timestamps as `Nat` tick counts, and database-generated ids
(`uuid defaultRandom`, `Date.now()`-based order numbers) as explicit `String`
parameters supplied to each operation.
-/

/-- Status enum of the orders table: pgEnum order_status from src/db/schema.ts. -/
inductive OrderStatus where
  | pending
  | confirmed
  | cancelled
deriving DecidableEq, Repr

/-- A row of the users table (src/db/schema.ts). -/
structure UserRow where
  id : String
  name : String
  email : String
  password : String
  phone : Option String
  userType : String
  createdAt : Nat
  updatedAt : Nat
deriving DecidableEq, Repr

/-- A row of the products table (src/db/schema.ts). -/
structure ProductRow where
  id : String
  sellerId : String
  name : String
  description : String
  category : String
  productType : String
  condition : String
  price : Int
  images : List String
  location : String
  contactNumber : String
  isActive : Bool
  createdAt : Nat
  updatedAt : Nat
deriving DecidableEq, Repr

/-- A row of the cart table (src/db/schema.ts). -/
structure CartRow where
  id : String
  buyerId : String
  productId : String
  quantity : Int
  addedAt : Nat
deriving DecidableEq, Repr

/-- A row of the orders table (src/db/schema.ts). -/
structure OrderRow where
  id : String
  buyerId : String
  orderNumber : String
  totalAmount : Int
  status : OrderStatus
  buyerName : String
  buyerEmail : String
  buyerPhone : String
  shippingAddress : String
  createdAt : Nat
deriving DecidableEq, Repr

/-- A row of the order_items table (src/db/schema.ts). -/
structure OrderItemRow where
  id : String
  orderId : String
  productId : String
  quantity : Int
  price : Int
  productName : String
  createdAt : Nat
deriving DecidableEq, Repr

/-- The whole database: one list of rows per table of src/db/schema.ts. -/
structure DB where
  users : List UserRow
  products : List ProductRow
  cart : List CartRow
  orders : List OrderRow
  orderItems : List OrderItemRow
deriving DecidableEq, Repr

/-- The empty database. -/
def emptyDB : DB := { users := [], products := [], cart := [], orders := [], orderItems := [] }

/-- Modelled from the spec: the session-cookie reader (`getSession` of
`@/lib/session`, imported by the order/cart/user actions) is not among the
sources; per spec section 6 the cookie holds `{userId, email, name, role}`
and the callers additionally read an `isLoggedIn` flag.  A `Session` value is
what `getSession` yields for the current request. -/
structure Session where
  isLoggedIn : Bool
  userId : String
  email : String
  name : String
  role : String
deriving DecidableEq, Repr

/-- Result of a server action: a returned value, or a thrown `Error(msg)` /
returned `{success:false, error: msg}`. -/
inductive ActionResult (α : Type) where
  | ok (val : α)
  | error (msg : String)
deriving DecidableEq, Repr

/-- True when the action failed. -/
def ActionResult.isError {α : Type} : ActionResult α → Bool
  | .ok _ => false
  | .error _ => true

/-! ### Character-level string helpers

JS/SQL string primitives (`toLowerCase`, `ILIKE '%q%'`, the validation
regexes) modelled over the character list of a `String`. -/

/-- ASCII lower-casing of one character (JS `toLowerCase` / SQL ILIKE folding
restricted to the ASCII range the data uses). -/
def lowerChar (c : Char) : Char := c.toLower

/-- Lower-cased copy of a string. -/
def toLowerStr (s : String) : String := String.mk (s.toList.map lowerChar)

/-- Whether `needle` is a leading segment of `hay`. -/
def leadsWith : List Char → List Char → Bool
  | _, [] => true
  | [], _ :: _ => false
  | h :: hs, n :: ns => h == n && leadsWith hs ns

/-- Whether `needle` occurs contiguously inside `hay`. -/
def containsChars : List Char → List Char → Bool
  | [], needle => needle.isEmpty
  | h :: hs, needle => leadsWith (h :: hs) needle || containsChars hs needle

/-- Case-insensitive substring test: SQL `column ILIKE '%q%'` (wildcard
characters inside `q` itself are not modelled). -/
def containsCI (hay q : String) : Bool :=
  containsChars (hay.toList.map lowerChar) (q.toList.map lowerChar)

/-- Splits a character list at the first occurrence of `sep` (the separator is
dropped); if `sep` does not occur the whole list is the first component. -/
def splitAtChar (sep : Char) : List Char → List Char × List Char
  | [] => ([], [])
  | c :: cs =>
    if c == sep then ([], cs)
    else
      let r := splitAtChar sep cs
      (c :: r.1, r.2)

/-- Abbreviation of zod's `z.string().email()` regex (src/lib/auth-actions.ts):
exactly one `@`, a nonempty local part, and a domain containing a dot.  The
full zod regex is more restrictive about the characters allowed; no claim
depends on that difference. -/
def zodEmailOk (s : String) : Bool :=
  let cs := s.toList
  let r := splitAtChar '@' cs
  cs.count '@' == 1 && !r.1.isEmpty && !r.2.isEmpty && r.2.contains '.'

/-! ### Product input validation (src/lib/validation-schemas.ts) -/

/-- The submitted product form fields after the numeric parse of `price`
(`rawData` of createProduct/updateProduct in src/lib/product-actions.ts). -/
structure ProductInput where
  name : String
  description : String
  category : String
  productType : String
  condition : String
  price : Int
  location : String
  contactNumber : String
deriving DecidableEq, Repr

/-- An uploaded file as the image handlers see it: its name, byte size and
MIME type. -/
structure ImageFile where
  name : String
  size : Nat
  type : String
deriving DecidableEq, Repr

/-- Characters allowed by the product-name regex `^[a-zA-Z0-9\s\-]+$`. -/
def nameCharOk (c : Char) : Bool :=
  c.isAlpha || c.isDigit || c.isWhitespace || c == '-'

/-- The category enum of productSchema (src/lib/validation-schemas.ts). -/
def productCategoriesList : List String :=
  ["Electronics", "Clothing", "Furniture", "Books",
   "Sports & Outdoors", "Home & Garden", "Automotive", "Other"]

/-- The contact-number regex `^(\+94|0)[1-9][0-9]{8}$` of productSchema. -/
def contactRegexOk (s : String) : Bool :=
  match s.toList with
  | '+' :: '9' :: '4' :: d :: rest =>
      (d.isDigit && d != '0') && rest.length == 8 && rest.all Char.isDigit
  | '0' :: d :: rest =>
      (d.isDigit && d != '0') && rest.length == 8 && rest.all Char.isDigit
  | _ => false

/-- `productSchema.parse` of src/lib/validation-schemas.ts: `none` when the
input validates, otherwise the message of the first zod issue (fields are
checked in declaration order, each field's refinements in order; the enum
fields get zod's generated invalid-value message, abbreviated here). -/
def productSchemaError (i : ProductInput) : Option String :=
  if i.name.length < 3 then some "Product name must be at least 3 characters"
  else if 100 < i.name.length then some "Product name must be less than 100 characters"
  else if !(i.name.toList.all nameCharOk) then
    some "Product name can only contain letters, numbers, spaces, and hyphens"
  else if i.description.length < 10 then some "Description must be at least 10 characters"
  else if 1000 < i.description.length then some "Description must be less than 1000 characters"
  else if !(productCategoriesList.any (fun c => c == i.category)) then
    some "Invalid enum value for category"
  else if !(i.productType == "household" || i.productType == "industrial") then
    some "Invalid enum value for productType"
  else if !(i.condition == "excellent" || i.condition == "good" || i.condition == "fair") then
    some "Invalid enum value for condition"
  else if i.price < 1 then some "Price must be at least 1 LKR"
  else if 10000000 < i.price then some "Price cannot exceed 10,000,000 LKR"
  else if i.location.length < 1 then some "Please select a location"
  else if !(contactRegexOk i.contactNumber) then
    some "Please enter a valid Sri Lankan phone number"
  else if i.contactNumber.length < 10 then some "Phone number must be at least 10 digits"
  else if 12 < i.contactNumber.length then some "Phone number must be less than 12 digits"
  else none

/-! ### Blob uploads (blob-utils: uploadImage / uploadMultipleImages) -/

/-- Result shape BlobUploadResult of blob-utils. -/
structure BlobUploadResult where
  url : String
  success : Bool
  error : Option String
deriving DecidableEq, Repr

/-- MIME types allowed by uploadImage. -/
def allowedImageTypes : List String := ["image/jpeg", "image/png", "image/webp"]

/-- uploadImage of blob-utils.  The generated blob URL (timestamp + random
suffix in the source) is modelled as a deterministic function of the file
name; the upload itself is assumed to succeed once validation passes. -/
def uploadImage (file : ImageFile) : BlobUploadResult :=
  if 3 * 1024 * 1024 < file.size then
    { url := "", success := false, error := some "File size must be less than 3MB" }
  else if !(allowedImageTypes.any (fun t => t == file.type)) then
    { url := "", success := false, error := some "Only JPEG, PNG, and WebP images are allowed" }
  else
    { url := "blob://" ++ file.name, success := true, error := none }

/-- uploadMultipleImages of blob-utils: uploads sequentially and stops at the
first failure. -/
def uploadMultipleImages : List ImageFile → List BlobUploadResult
  | [] => []
  | f :: fs =>
    let r := uploadImage f
    if r.success then r :: uploadMultipleImages fs else [r]

/-! ### Product actions (src/lib/product-actions.ts) -/

/-- The hardcoded seller id used by createProduct
(src/lib/product-actions.ts line 57; the source comment reads
"TODO: Get actual seller ID from session ... Valid UUID format for testing"). -/
def TEST_SELLER_ID : String := "00000000-0000-0000-0000-000000000001"

/-- createProduct of src/lib/product-actions.ts.  `newId`/`now` stand for the
database-generated row id and timestamp.  Note the function reads no session:
every row it inserts carries `TEST_SELLER_ID`. -/
def createProduct (input : ProductInput) (images : List ImageFile) (newId : String)
    (now : Nat) (db : DB) : DB × ActionResult ProductRow :=
  match productSchemaError input with
  | some msg => (db, .error msg)
  | none =>
    let imageFiles := images.filter (fun f => 0 < f.size)
    if imageFiles.isEmpty then (db, .error "At least one image is required")
    else if 3 < imageFiles.length then (db, .error "Maximum 3 images allowed")
    else
      let uploadResults := uploadMultipleImages imageFiles
      if uploadResults.any (fun r => !r.success) then
        (db, .error "Some images failed to upload")
      else
        let row : ProductRow :=
          { id := newId, sellerId := TEST_SELLER_ID, name := input.name,
            description := input.description, category := input.category,
            productType := input.productType, condition := input.condition,
            price := input.price, images := uploadResults.map (fun r => r.url),
            location := input.location, contactNumber := input.contactNumber,
            isActive := true, createdAt := now, updatedAt := now }
        ({ db with products := db.products ++ [row] }, .ok row)

/-- updateProduct of src/lib/product-actions.ts (blob deletions of removed
images are external side effects with no database footprint). -/
def updateProduct (productId : String) (input : ProductInput) (newImages : List ImageFile)
    (removedImages : List String) (now : Nat) (db : DB) : DB × ActionResult ProductRow :=
  match productSchemaError input with
  | some msg => (db, .error msg)
  | none =>
    match db.products.find? (fun p => p.id == productId) with
    | none => (db, .error "Product not found")
    | some existing =>
      let newImageFiles := newImages.filter (fun f => 0 < f.size)
      let uploadResults := uploadMultipleImages newImageFiles
      if !newImageFiles.isEmpty && uploadResults.any (fun r => !r.success) then
        (db, .error "Some new images failed to upload")
      else
        let withNew := existing.images ++ uploadResults.map (fun r => r.url)
        let finalImageUrls :=
          if removedImages.isEmpty then withNew
          else withNew.filter (fun url => !(removedImages.any (fun r2 => r2 == url)))
        if finalImageUrls.isEmpty then (db, .error "At least one image is required")
        else if 3 < finalImageUrls.length then (db, .error "Maximum 3 images allowed")
        else
          let upd : ProductRow → ProductRow := fun p =>
            if p.id == productId then
              { p with
                name := input.name
                description := input.description
                category := input.category
                productType := input.productType
                condition := input.condition
                price := input.price
                images := finalImageUrls
                location := input.location
                contactNumber := input.contactNumber
                updatedAt := now }
            else p
          ({ db with products := db.products.map upd }, .ok (upd existing))

/-- deleteProduct of src/lib/product-actions.ts.  The cart rows of the deleted
product disappear through the schema's ON DELETE CASCADE; the RESTRICT
foreign key from order_items (which would abort the delete for a product that
was ever ordered) is not modelled — no claim depends on it. -/
def deleteProduct (productId : String) (db : DB) : DB × ActionResult Unit :=
  match db.products.find? (fun p => p.id == productId) with
  | none => (db, .error "Product not found")
  | some _ =>
    ({ db with
        products := db.products.filter (fun p => !(p.id == productId))
        cart := db.cart.filter (fun c => !(c.productId == productId)) },
     .ok ())

/-- toggleProductStatus of src/lib/product-actions.ts. -/
def toggleProductStatus (productId : String) (now : Nat) (db : DB) :
    DB × ActionResult Bool :=
  match db.products.find? (fun p => p.id == productId) with
  | none => (db, .error "Product not found")
  | some p0 =>
    let newStatus := !p0.isActive
    ({ db with products := db.products.map (fun p =>
        if p.id == productId then { p with isActive := newStatus, updatedAt := now } else p) },
     .ok newStatus)

/-! ### Registration (src/lib/auth-actions.ts) -/

/-- The registration form fields (missing optional fields arrive as ""). -/
structure RegisterInput where
  name : String
  email : String
  password : String
  phone : String
  userType : String
deriving DecidableEq, Repr

/-- registerUser of src/lib/auth-actions.ts.  The bcrypt hash (external salted
randomness) is modelled as a tagged copy of the password; no claim inspects
it. -/
def registerUser (input : RegisterInput) (newId : String) (now : Nat) (db : DB) :
    DB × ActionResult Unit :=
  let userType := if input.userType == "" then "buyer" else input.userType
  if input.name.isEmpty then (db, .error "Name is required")
  else if !(zodEmailOk input.email) then (db, .error "Invalid email address")
  else if input.password.length < 8 then (db, .error "Password must be at least 8 characters")
  else if !(userType == "seller" || userType == "buyer") then (db, .error "Validation failed")
  else if !(db.users.filter (fun u => u.email == toLowerStr input.email)).isEmpty then
    (db, .error "User with this email already exists")
  else
    ({ db with users := db.users ++ [{
        id := newId
        name := input.name
        email := toLowerStr input.email
        password := "bcrypt$" ++ input.password
        phone := if input.phone == "" then none else some input.phone
        userType := userType
        createdAt := now
        updatedAt := now }] },
     .ok ())

/-! ### Cart actions (cart-actions: addToCart, updateCartItem, removeFromCart,
getCartItems, clearCart) -/

/-- The buyer's cart rows: `where eq(cart.buyerId, uid)`. -/
def buyerCart (db : DB) (uid : String) : List CartRow :=
  db.cart.filter (fun c => c.buyerId == uid)

/-- addToCart of cart-actions. -/
def addToCart (sess : Session) (productId : String) (quantity : Int)
    (newId : String) (now : Nat) (db : DB) : DB × ActionResult Unit :=
  if !sess.isLoggedIn then (db, .error "You must be logged in to add items to cart")
  else if sess.role != "buyer" then (db, .error "Only buyers can add items to cart")
  else
    match db.products.find? (fun p => p.id == productId && p.isActive) with
    | none => (db, .error "Product not found or unavailable")
    | some _ =>
      match db.cart.find? (fun c => c.buyerId == sess.userId && c.productId == productId) with
      | some existing =>
        ({ db with cart := db.cart.map (fun c =>
            if c.id == existing.id then
              { c with quantity := existing.quantity + quantity, addedAt := now }
            else c) },
         .ok ())
      | none =>
        ({ db with cart := db.cart ++ [{
            id := newId
            buyerId := sess.userId
            productId := productId
            quantity := quantity
            addedAt := now }] },
         .ok ())

/-- updateCartItem of cart-actions. -/
def updateCartItem (sess : Session) (cartItemId : String) (quantity : Int) (db : DB) :
    DB × ActionResult Unit :=
  if !sess.isLoggedIn then (db, .error "You must be logged in to update cart")
  else if quantity ≤ 0 then (db, .error "Quantity must be greater than 0")
  else
    match db.cart.find? (fun c => c.id == cartItemId && c.buyerId == sess.userId) with
    | none => (db, .error "Cart item not found")
    | some _ =>
      ({ db with cart := db.cart.map (fun c =>
          if c.id == cartItemId then { c with quantity := quantity } else c) },
       .ok ())

/-- removeFromCart of cart-actions. -/
def removeFromCart (sess : Session) (cartItemId : String) (db : DB) :
    DB × ActionResult Unit :=
  if !sess.isLoggedIn then (db, .error "You must be logged in to remove items from cart")
  else
    match db.cart.find? (fun c => c.id == cartItemId && c.buyerId == sess.userId) with
    | none => (db, .error "Cart item not found")
    | some _ =>
      ({ db with cart := db.cart.filter (fun c => !(c.id == cartItemId)) }, .ok ())

/-- clearCart of cart-actions. -/
def clearCart (sess : Session) (db : DB) : DB × ActionResult Unit :=
  if !sess.isLoggedIn then (db, .error "You must be logged in to clear cart")
  else
    ({ db with cart := db.cart.filter (fun c => !(c.buyerId == sess.userId)) }, .ok ())

/-- The rows of getCartItems' query: cart inner-joined with active products
(`and(eq(cart.productId, products.id), eq(products.isActive, true))`) and with
the product's seller, restricted to the buyer. -/
def activeCartLines (db : DB) (uid : String) : List (CartRow × ProductRow × UserRow) :=
  (buyerCart db uid).flatMap (fun c =>
    (db.products.filter (fun p => p.id == c.productId && p.isActive)).flatMap (fun p =>
      (db.users.filter (fun u => u.id == p.sellerId)).map (fun u => (c, p, u))))

/-- `ORDER BY cart.addedAt DESC`. -/
def cartAddedAtDesc (a b : CartRow × ProductRow × UserRow) : Prop :=
  b.1.addedAt ≤ a.1.addedAt

instance : DecidableRel cartAddedAtDesc := fun a b => Nat.decLe b.1.addedAt a.1.addedAt

instance : IsTotal (CartRow × ProductRow × UserRow) cartAddedAtDesc :=
  ⟨fun a b => (Nat.le_total b.1.addedAt a.1.addedAt).elim Or.inl Or.inr⟩

instance : IsTrans (CartRow × ProductRow × UserRow) cartAddedAtDesc :=
  ⟨fun _ _ _ h1 h2 => Nat.le_trans h2 h1⟩

/-- The CartSummary shape of cart-actions (items carry their join row). -/
structure CartSummary where
  items : List (CartRow × ProductRow × UserRow)
  totalItems : Int
  totalAmount : Int
deriving DecidableEq, Repr

/-- getCartItems of cart-actions: an unauthenticated caller gets the empty
summary rather than an error; otherwise the joined rows sorted newest-first
with their totals. -/
def getCartItems (sess : Session) (db : DB) : CartSummary :=
  if !sess.isLoggedIn then { items := [], totalItems := 0, totalAmount := 0 }
  else
    let items := List.insertionSort cartAddedAtDesc (activeCartLines db sess.userId)
    { items := items,
      totalItems := (items.map (fun l => l.1.quantity)).sum,
      totalAmount := (items.map (fun l => l.2.1.price * l.1.quantity)).sum }

/-! ### Product browsing (getProducts of product listing actions) -/

/-- The priceRange filter field. -/
structure PriceRange where
  min : Int
  max : Int
deriving DecidableEq, Repr

/-- ProductFilters of the browsing action.  The optional `category` /
`location` arrays are modelled as plain lists: the code skips them both when
absent and when empty, so `[]` stands for either. -/
structure ProductFilters where
  search : Option String
  category : List String
  productType : Option String
  condition : Option String
  priceRange : Option PriceRange
  location : List String
deriving DecidableEq, Repr

/-- The empty filter set (the `{}` default). -/
def noFilters : ProductFilters :=
  { search := none, category := [], productType := none, condition := none,
    priceRange := none, location := [] }

/-- The WHERE conditions getProducts builds, applied to one product row.
JS truthiness shows through: an empty search string and a zero price bound
are skipped, exactly as `if (filters.search)` / `if (filters.priceRange.min)`
skip falsy values. -/
def matchesFilters (f : ProductFilters) (p : ProductRow) : Bool :=
  p.isActive
  && (match f.search with
      | none => true
      | some q =>
        if q == "" then true
        else containsCI p.name q || containsCI p.description q || containsCI p.category q)
  && (if f.category.isEmpty then true else f.category.any (fun c => p.category == c))
  && (match f.productType with
      | none => true
      | some t => p.productType == t)
  && (match f.condition with
      | none => true
      | some c => p.condition == c)
  && (match f.priceRange with
      | none => true
      | some r =>
        (if r.min == 0 then true else decide (r.min ≤ p.price))
        && (if r.max == 0 then true else decide (p.price ≤ r.max)))
  && (if f.location.isEmpty then true else f.location.any (fun l => p.location == l))

/-- The product/seller join of getProducts
(`innerJoin(users, eq(products.sellerId, users.id))`). -/
def productLines (db : DB) : List (ProductRow × UserRow) :=
  db.products.flatMap (fun p =>
    (db.users.filter (fun u => u.id == p.sellerId)).map (fun u => (p, u)))

/-- The joined rows matching the WHERE conditions. -/
def matchingLines (db : DB) (f : ProductFilters) : List (ProductRow × UserRow) :=
  (productLines db).filter (fun pu => matchesFilters f pu.1)

/-- `ORDER BY products.createdAt DESC`. -/
def createdAtDesc (a b : ProductRow × UserRow) : Prop :=
  b.1.createdAt ≤ a.1.createdAt

instance : DecidableRel createdAtDesc := fun a b => Nat.decLe b.1.createdAt a.1.createdAt

instance : IsTotal (ProductRow × UserRow) createdAtDesc :=
  ⟨fun a b => (Nat.le_total b.1.createdAt a.1.createdAt).elim Or.inl Or.inr⟩

instance : IsTrans (ProductRow × UserRow) createdAtDesc :=
  ⟨fun _ _ _ h1 h2 => Nat.le_trans h2 h1⟩

/-- The ProductsResponse shape (entries carry their join row). -/
structure ProductsResponse where
  products : List (ProductRow × UserRow)
  total : Nat
  hasMore : Bool
deriving DecidableEq, Repr

/-- getProducts of the browsing action: WHERE composition, ORDER BY createdAt
DESC, `limit(limit + 1).offset((page - 1) * limit)`, one row beyond the page
probed to compute hasMore, and a count(*) with the same WHERE for total. -/
def getProducts (db : DB) (f : ProductFilters) (page limit : Nat) : ProductsResponse :=
  let offset := (page - 1) * limit
  let sorted := List.insertionSort createdAtDesc (matchingLines db f)
  let fetched := (sorted.drop offset).take (limit + 1)
  { products := if limit < fetched.length then fetched.dropLast else fetched,
    total := (matchingLines db f).length,
    hasMore := decide (limit < fetched.length) }

/-! ### Order actions (order-actions: createOrder, getOrderById, cancelOrder) -/

/-- The checkout form fields (OrderData of order-actions). -/
structure OrderData where
  buyerName : String
  buyerEmail : String
  buyerPhone : String
  shippingAddress : String
deriving DecidableEq, Repr

/-- The cart read of createOrder: the buyer's cart rows inner-joined with
their products (`innerJoin(products, eq(cart.productId, products.id))`). -/
def cartLines (db : DB) (uid : String) : List (CartRow × ProductRow) :=
  (buyerCart db uid).flatMap (fun c =>
    (db.products.filter (fun p => p.id == c.productId)).map (fun p => (c, p)))

/-- createOrder's total: the sum of `parseFloat(product.price) * quantity`
over the cart lines. -/
def orderTotal (lines : List (CartRow × ProductRow)) : Int :=
  (lines.map (fun cp => cp.2.price * cp.1.quantity)).sum

/-- The rejection checks createOrder runs before writing anything, in source
order; `none` means all passed. -/
def createOrderChecks (sess : Session) (db : DB) : Option String :=
  if !sess.isLoggedIn then some "You must be logged in to place an order"
  else if sess.role != "buyer" then some "Only buyers can place orders"
  else
    let lines := cartLines db sess.userId
    if lines.isEmpty then some "Your cart is empty"
    else if lines.any (fun cp => !cp.2.isActive) then
      some "Some items in your cart are no longer available"
    else none

/-- The order row createOrder inserts (status defaults to pending in the
schema; `now`/`newOrderId`/`orderNumber` stand for the generated values). -/
def newOrderRow (sess : Session) (odata : OrderData) (newOrderId orderNumber : String)
    (now : Nat) (db : DB) : OrderRow :=
  { id := newOrderId, buyerId := sess.userId, orderNumber := orderNumber,
    totalAmount := orderTotal (cartLines db sess.userId), status := OrderStatus.pending,
    buyerName := odata.buyerName, buyerEmail := odata.buyerEmail,
    buyerPhone := odata.buyerPhone, shippingAddress := odata.shippingAddress,
    createdAt := now }

/-- The order-item rows createOrder inserts: one per cart line, snapshotting
the product's name and price (item ids being database-generated are derived
from the order id and the line index). -/
def orderItemsOf (lines : List (CartRow × ProductRow)) (newOrderId : String)
    (now : Nat) : List OrderItemRow :=
  lines.enum.map (fun e =>
    { id := newOrderId ++ "#" ++ toString e.1, orderId := newOrderId,
      productId := e.2.1.productId, quantity := e.2.1.quantity,
      price := e.2.2.price, productName := e.2.2.name, createdAt := now })

/-- The three write round trips of createOrder, in source order: insert the
order row, insert the order-item rows, delete the buyer's cart rows.  Each
closes over the pre-state `db` (the cart was read once, before writing), so a
prefix of this list is exactly the state after a failure between round trips
— the source runs them without a transaction ("Neon HTTP driver doesn't
support transactions") and has no rollback path. -/
def createOrderSteps (sess : Session) (odata : OrderData) (newOrderId orderNumber : String)
    (now : Nat) (db : DB) : List (DB → DB) :=
  [ fun s => { s with orders := s.orders ++ [newOrderRow sess odata newOrderId orderNumber now db] },
    fun s => { s with orderItems := s.orderItems ++ orderItemsOf (cartLines db sess.userId) newOrderId now },
    fun s => { s with cart := s.cart.filter (fun c => !(c.buyerId == sess.userId)) } ]

/-- Runs a list of database mutations left to right. -/
def runSteps : List (DB → DB) → DB → DB
  | [], db => db
  | f :: fs, db => runSteps fs (f db)

/-- The database state after the checks and the first `k` write round trips of
createOrder — the state a crash after `k` round trips leaves behind. -/
def createOrderUpTo (sess : Session) (odata : OrderData) (newOrderId orderNumber : String)
    (now : Nat) (k : Nat) (db : DB) : DB :=
  match createOrderChecks sess db with
  | some _ => db
  | none => runSteps ((createOrderSteps sess odata newOrderId orderNumber now db).take k) db

/-- createOrder of order-actions: the checks, then the three write round
trips. -/
def createOrder (sess : Session) (odata : OrderData) (newOrderId orderNumber : String)
    (now : Nat) (db : DB) : DB × ActionResult OrderRow :=
  match createOrderChecks sess db with
  | some msg => (db, .error msg)
  | none =>
    (runSteps (createOrderSteps sess odata newOrderId orderNumber now db) db,
     .ok (newOrderRow sess odata newOrderId orderNumber now db))

/-- The order details getOrderById returns: the order row and its items
inner-joined with their products. -/
structure OrderDetails where
  order : OrderRow
  items : List (OrderItemRow × ProductRow)
deriving DecidableEq, Repr

/-- The item query of getOrderById. -/
def orderItemLines (db : DB) (orderId : String) : List (OrderItemRow × ProductRow) :=
  (db.orderItems.filter (fun it => it.orderId == orderId)).flatMap (fun it =>
    (db.products.filter (fun p => p.id == it.productId)).map (fun p => (it, p)))

/-- getOrderById of order-actions: requires a logged-in session, then selects
the order by `and(eq(orders.id, orderId), eq(orders.buyerId, user.userId))`;
a missing row is `none`, not an error.  (The catch-all rethrow wraps any
thrown message in "Failed to fetch order details"; only the inner throw is
modelled.) -/
def getOrderById (sess : Session) (orderId : String) (db : DB) :
    ActionResult (Option OrderDetails) :=
  if !sess.isLoggedIn then .error "You must be logged in to view orders"
  else
    match db.orders.find? (fun o => o.id == orderId && o.buyerId == sess.userId) with
    | none => .ok none
    | some o => .ok (some { order := o, items := orderItemLines db orderId })

/-- cancelOrder of order-actions.  (Its `if (!user)` login check can never
fire — `getSession` always yields an object — so it is not modelled; an
unauthenticated call just matches no order.) -/
def cancelOrder (sess : Session) (orderId : String) (db : DB) : DB × ActionResult Unit :=
  match db.orders.find? (fun o => o.id == orderId && o.buyerId == sess.userId) with
  | none => (db, .error "Order not found")
  | some o =>
    if o.status = OrderStatus.pending then
      ({ db with orders := db.orders.map (fun o2 =>
          if o2.id == orderId then { o2 with status := OrderStatus.cancelled } else o2) },
       .ok ())
    else (db, .error "Only pending orders can be cancelled")

/-! ### The database-mutating operations of the application, as one type -/

/-- Every database-mutating server action of the repository, with its request
inputs (the reads — getProducts, getCartItems, getOrderById, getUserOrders,
getOrderStats — touch no rows). -/
inductive Op where
  | register (input : RegisterInput) (newId : String) (now : Nat)
  | createProd (input : ProductInput) (images : List ImageFile) (newId : String) (now : Nat)
  | updateProd (productId : String) (input : ProductInput) (newImages : List ImageFile)
      (removedImages : List String) (now : Nat)
  | deleteProd (productId : String)
  | toggleStatus (productId : String) (now : Nat)
  | addItem (sess : Session) (productId : String) (quantity : Int) (newId : String) (now : Nat)
  | updateItem (sess : Session) (cartItemId : String) (quantity : Int)
  | removeItem (sess : Session) (cartItemId : String)
  | clear (sess : Session)
  | placeOrder (sess : Session) (odata : OrderData) (newOrderId : String)
      (orderNumber : String) (now : Nat)
  | cancel (sess : Session) (orderId : String)
deriving DecidableEq, Repr

/-- The database after running one operation. -/
def applyOp : Op → DB → DB
  | .register input newId now, db => (registerUser input newId now db).1
  | .createProd input images newId now, db => (createProduct input images newId now db).1
  | .updateProd pid input newImages removed now, db =>
      (updateProduct pid input newImages removed now db).1
  | .deleteProd pid, db => (deleteProduct pid db).1
  | .toggleStatus pid now, db => (toggleProductStatus pid now db).1
  | .addItem sess pid qty newId now, db => (addToCart sess pid qty newId now db).1
  | .updateItem sess cid qty, db => (updateCartItem sess cid qty db).1
  | .removeItem sess cid, db => (removeFromCart sess cid db).1
  | .clear sess, db => (clearCart sess db).1
  | .placeOrder sess odata oid onum now, db => (createOrder sess odata oid onum now db).1
  | .cancel sess oid, db => (cancelOrder sess oid db).1

/-- The (buyerId, productId) keys of the cart rows: the cart's uniqueness
invariant says these are pairwise distinct. -/
def cartKeys (db : DB) : List (String × String) :=
  db.cart.map (fun c => (c.buyerId, c.productId))

/-! ### Concrete sample data (for witnesses and counterexamples) -/

/-- A logged-in buyer session. -/
def sessB : Session :=
  { isLoggedIn := true, userId := "buyer-1", email := "b@mail.lk", name := "Buyer",
    role := "buyer" }

/-- A seller user row. -/
def seller1 : UserRow :=
  { id := "seller-1", name := "Seller One", email := "s1@mail.lk", password := "bcrypt$pw",
    phone := none, userType := "seller", createdAt := 1, updatedAt := 1 }

/-- An active product of seller1. -/
def prodA : ProductRow :=
  { id := "prod-A", sellerId := "seller-1", name := "Used Laptop",
    description := "A reliable used laptop", category := "Electronics",
    productType := "household", condition := "good", price := 100,
    images := ["blob://a.jpg"], location := "Colombo", contactNumber := "0771234567",
    isActive := true, createdAt := 2, updatedAt := 2 }

/-- A cart row of buyer-1 holding two units of prod-A. -/
def cartA : CartRow :=
  { id := "cart-1", buyerId := "buyer-1", productId := "prod-A", quantity := 2, addedAt := 3 }

/-- A database with one seller, one active product and one cart row. -/
def db1 : DB :=
  { users := [seller1], products := [prodA], cart := [cartA], orders := [], orderItems := [] }

/-- A pending order of buyer-1. -/
def orderP : OrderRow :=
  { id := "ord-1", buyerId := "buyer-1", orderNumber := "RT-000001AAAA", totalAmount := 200,
    status := OrderStatus.pending, buyerName := "Buyer", buyerEmail := "b@mail.lk",
    buyerPhone := "0771234567", shippingAddress := "12 Main Street, Colombo", createdAt := 4 }

/-- db1 plus the pending order. -/
def db4 : DB := { db1 with orders := [orderP] }

/-- A product form input that passes productSchema. -/
def input3 : ProductInput :=
  { name := "Used Laptop", description := "A reliable used laptop", category := "Electronics",
    productType := "household", condition := "good", price := 50000, location := "Colombo",
    contactNumber := "0771234567" }

/-- input3 with a zero price. -/
def input7 : ProductInput := { input3 with price := 0 }

/-- A small JPEG upload. -/
def image3 : ImageFile := { name := "laptop.jpg", size := 1000, type := "image/jpeg" }

/-- An upload one byte over the 3 MB limit. -/
def bigImage : ImageFile := { name := "big.png", size := 3 * 1024 * 1024 + 1, type := "image/png" }

/-- A filter set whose price range has both bounds zero. -/
def f6 : ProductFilters := { noFilters with priceRange := some { min := 0, max := 0 } }

/-- A filled-in checkout form. -/
def od1 : OrderData :=
  { buyerName := "Buyer", buyerEmail := "b@mail.lk", buyerPhone := "0771234567",
    shippingAddress := "12 Main Street, Colombo" }

/-! ### Helper lemmas -/

theorem uploadMultiple_all_ok (fs : List ImageFile)
    (h : (uploadMultipleImages fs).any (fun r => !r.success) = false) :
    uploadMultipleImages fs = fs.map uploadImage ∧
    ∀ f ∈ fs, (uploadImage f).success = true := by
  induction fs with
  | nil => simp [uploadMultipleImages]
  | cons f fs ih =>
    by_cases hs : (uploadImage f).success = true
    · rw [uploadMultipleImages, if_pos hs] at h
      rw [List.any_cons] at h
      have h2 : (uploadMultipleImages fs).any (fun r => !r.success) = false := by
        rcases Bool.or_eq_false_iff.mp h with ⟨_, h2⟩
        exact h2
      obtain ⟨heq, hall⟩ := ih h2
      refine ⟨?_, ?_⟩
      · rw [uploadMultipleImages, if_pos hs, heq, List.map_cons]
      · intro g hg
        rcases List.mem_cons.mp hg with rfl | hg2
        · exact hs
        · exact hall g hg2
    · rw [uploadMultipleImages, if_neg hs] at h
      simp at h
      exact absurd h hs

theorem uploadImage_success_size (f : ImageFile)
    (h : (uploadImage f).success = true) : f.size ≤ 3 * 1024 * 1024 := by
  unfold uploadImage at h
  split_ifs at h with h1 h2
  all_goals simp_all

/-! ### C3 -/

/-- C3: the claim says every product row created by createProduct carries the
creating seller's id.  The source has no session read at all: this concrete
successful creation (on an empty database, with a valid form) stores the
hardcoded placeholder `"00000000-0000-0000-0000-000000000001"` as sellerId,
so no seller other than that placeholder can ever own a created product. -/
theorem createProduct_stores_hardcoded_sellerId :
    (createProduct input3 [image3] "prod-new" 10 emptyDB).2.isError = false
    ∧ ((createProduct input3 [image3] "prod-new" 10 emptyDB).1.products.map
        (fun p => p.sellerId)) = ["00000000-0000-0000-0000-000000000001"] := by
  decide

/-! ### C9 -/

/-- C9: for a logged-in session, getOrderById yields the details of an order
exactly when an order with the requested id exists and belongs to the
session's user; otherwise (another buyer's order, or no such id) it yields
`none` rather than an error. -/
theorem getOrderById_buyer_scoped (sess : Session) (orderId : String) (db : DB)
    (hLog : sess.isLoggedIn = true) :
    ((∃ d, getOrderById sess orderId db = .ok (some d) ∧ d.order ∈ db.orders ∧
        d.order.id = orderId ∧ d.order.buyerId = sess.userId) ↔
      ∃ o ∈ db.orders, o.id = orderId ∧ o.buyerId = sess.userId)
    ∧ ((¬∃ o ∈ db.orders, o.id = orderId ∧ o.buyerId = sess.userId) →
        getOrderById sess orderId db = .ok none) := by
  have hg : getOrderById sess orderId db =
      match db.orders.find? (fun o => o.id == orderId && o.buyerId == sess.userId) with
      | none => .ok none
      | some o => .ok (some { order := o, items := orderItemLines db orderId }) := by
    unfold getOrderById
    rw [hLog]
    simp
  cases hfind : db.orders.find? (fun o => o.id == orderId && o.buyerId == sess.userId) with
  | none =>
    rw [hfind] at hg
    constructor
    · constructor
      · rintro ⟨d, hd, -, -, -⟩
        rw [hg] at hd
        simp at hd
      · rintro ⟨o, ho, h1, h2⟩
        rw [List.find?_eq_none] at hfind
        have := hfind o ho
        simp [h1, h2] at this
    · intro _
      exact hg
  | some o =>
    rw [hfind] at hg
    have hp := List.find?_some hfind
    have hmem := List.mem_of_find?_eq_some hfind
    rw [Bool.and_eq_true, beq_iff_eq, beq_iff_eq] at hp
    constructor
    · constructor
      · intro _
        exact ⟨o, hmem, hp.1, hp.2⟩
      · intro _
        exact ⟨{ order := o, items := orderItemLines db orderId }, hg, hmem, hp.1, hp.2⟩
    · intro hno
      exact absurd ⟨o, hmem, hp.1, hp.2⟩ hno

/-- Witness for C9: a logged-in session of a different user gets `none` for
buyer-1's order. -/
theorem getOrderById_buyer_scoped_witness :
    getOrderById { isLoggedIn := true, userId := "buyer-2", email := "c@mail.lk",
                   name := "Other", role := "buyer" } "ord-1" db4 = .ok none :=
  (getOrderById_buyer_scoped _ "ord-1" db4 rfl).2 (by decide)

/-! ### C10 -/

/-- C10: getCartItems returns the empty summary (not an error) without a
login; for a logged-in buyer it silently excludes cart rows whose product is
inactive, sums the totals over the included rows only, and a cart whose
products were all deactivated yields the empty summary. -/
theorem getCartItems_unauth_and_inactive (sess : Session) (db : DB) :
    (sess.isLoggedIn = false →
      getCartItems sess db = { items := [], totalItems := 0, totalAmount := 0 })
    ∧ (sess.isLoggedIn = true →
      (∀ l ∈ (getCartItems sess db).items,
          l.1.buyerId = sess.userId ∧ l.2.1.isActive = true ∧ l.2.1.id = l.1.productId)
      ∧ (getCartItems sess db).totalItems =
          ((activeCartLines db sess.userId).map (fun l => l.1.quantity)).sum
      ∧ (getCartItems sess db).totalAmount =
          ((activeCartLines db sess.userId).map (fun l => l.2.1.price * l.1.quantity)).sum
      ∧ ((∀ c ∈ buyerCart db sess.userId, ∀ p ∈ db.products,
            p.id = c.productId → p.isActive = false) →
          getCartItems sess db = { items := [], totalItems := 0, totalAmount := 0 })) := by
  constructor
  · intro h
    unfold getCartItems
    rw [h]
    rfl
  · intro h
    have hperm := List.perm_insertionSort cartAddedAtDesc (activeCartLines db sess.userId)
    have hfun : getCartItems sess db =
        { items := List.insertionSort cartAddedAtDesc (activeCartLines db sess.userId),
          totalItems := ((List.insertionSort cartAddedAtDesc
            (activeCartLines db sess.userId)).map (fun l => l.1.quantity)).sum,
          totalAmount := ((List.insertionSort cartAddedAtDesc
            (activeCartLines db sess.userId)).map
              (fun l => l.2.1.price * l.1.quantity)).sum } := by
      unfold getCartItems
      rw [h]
      rfl
    refine ⟨?_, ?_, ?_, ?_⟩
    · intro l hl
      rw [hfun] at hl
      have hl2 : l ∈ activeCartLines db sess.userId := hperm.mem_iff.mp hl
      unfold activeCartLines at hl2
      obtain ⟨c, hc, rest⟩ := List.mem_flatMap.mp hl2
      obtain ⟨p, hp, rest2⟩ := List.mem_flatMap.mp rest
      obtain ⟨u, hu, heq⟩ := List.mem_map.mp rest2
      subst heq
      obtain ⟨-, hcb⟩ := List.mem_filter.mp hc
      obtain ⟨-, hpp⟩ := List.mem_filter.mp hp
      rw [Bool.and_eq_true, beq_iff_eq] at hpp
      exact ⟨beq_iff_eq.mp hcb, hpp.2, hpp.1⟩
    · rw [hfun]
      exact (hperm.map _).sum_eq
    · rw [hfun]
      exact (hperm.map _).sum_eq
    · intro hall
      have hnil : activeCartLines db sess.userId = [] := by
        unfold activeCartLines
        rw [List.flatMap_eq_nil_iff]
        intro c hc
        have h0 : db.products.filter (fun p => p.id == c.productId && p.isActive) = [] := by
          rw [List.filter_eq_nil_iff]
          intro p hp hcontra
          rw [Bool.and_eq_true, beq_iff_eq] at hcontra
          have := hall c hc p hp hcontra.1
          rw [this] at hcontra
          exact absurd hcontra.2 (by simp)
        rw [h0]
        rfl
      rw [hfun, hnil]
      rfl

/-- Witness for C10: the buyer whose only cart product has been deactivated
gets the empty summary, not an error. -/
theorem getCartItems_unauth_and_inactive_witness :
    getCartItems sessB
      { db1 with products := [{ prodA with isActive := false }] } =
      { items := [], totalItems := 0, totalAmount := 0 } :=
  ((getCartItems_unauth_and_inactive sessB
      { db1 with products := [{ prodA with isActive := false }] }).2 rfl).2.2.2
    (by decide)

theorem createProduct_ok_shape (input : ProductInput) (images : List ImageFile)
    (newId : String) (now : Nat) (db : DB) (row : ProductRow)
    (hok : (createProduct input images newId now db).2 = .ok row) :
    productSchemaError input = none ∧
    row = { id := newId, sellerId := TEST_SELLER_ID, name := input.name,
            description := input.description, category := input.category,
            productType := input.productType, condition := input.condition,
            price := input.price,
            images := (uploadMultipleImages
              (images.filter (fun f => 0 < f.size))).map (fun r => r.url),
            location := input.location, contactNumber := input.contactNumber,
            isActive := true, createdAt := now, updatedAt := now } ∧
    (images.filter (fun f => 0 < f.size)).isEmpty = false ∧
    ¬(3 < (images.filter (fun f => 0 < f.size)).length) ∧
    (uploadMultipleImages (images.filter (fun f => 0 < f.size))).any
      (fun r => !r.success) = false := by
  cases heq : productSchemaError input with
  | some msg => simp [createProduct, heq] at hok
  | none =>
    simp only [createProduct, heq] at hok
    by_cases hemp : (images.filter (fun f => 0 < f.size)).isEmpty
    · simp [hemp] at hok
    · by_cases hlen : 3 < (images.filter (fun f => 0 < f.size)).length
      · simp [hemp, hlen] at hok
      · by_cases hfail : (uploadMultipleImages (images.filter (fun f => 0 < f.size))).any
            (fun r => !r.success) = true
        · simp [hemp, hlen, hfail] at hok
        · rw [Bool.not_eq_true] at hfail
          simp [hemp, hlen, hfail] at hok
          exact ⟨rfl, hok.symm, by simpa using hemp, hlen, hfail⟩

theorem ite_some_none_imp {α : Type} {c : Prop} [Decidable c] {x : α} {y : Option α}
    (h : (if c then some x else y) = none) : ¬c ∧ y = none := by
  by_cases hc : c
  · rw [if_pos hc] at h
    cases h
  · rw [if_neg hc] at h
    exact ⟨hc, h⟩

theorem productSchemaError_none_imp (i : ProductInput)
    (h : productSchemaError i = none) : 1 ≤ i.price := by
  unfold productSchemaError at h
  obtain ⟨-, h⟩ := ite_some_none_imp h
  obtain ⟨-, h⟩ := ite_some_none_imp h
  obtain ⟨-, h⟩ := ite_some_none_imp h
  obtain ⟨-, h⟩ := ite_some_none_imp h
  obtain ⟨-, h⟩ := ite_some_none_imp h
  obtain ⟨-, h⟩ := ite_some_none_imp h
  obtain ⟨-, h⟩ := ite_some_none_imp h
  obtain ⟨-, h⟩ := ite_some_none_imp h
  obtain ⟨hp, -⟩ := ite_some_none_imp h
  omega

theorem updateProduct_ok_price (productId : String) (input : ProductInput)
    (newImages : List ImageFile) (removed : List String) (now : Nat) (db : DB)
    (row : ProductRow)
    (hok : (updateProduct productId input newImages removed now db).2 = .ok row) :
    productSchemaError input = none ∧ row.price = input.price := by
  cases heq : productSchemaError input with
  | some msg => simp [updateProduct, heq] at hok
  | none =>
    refine ⟨rfl, ?_⟩
    simp only [updateProduct, heq] at hok
    cases hfind : db.products.find? (fun p => p.id == productId) with
    | none =>
      simp only [hfind] at hok
      simp at hok
    | some existing =>
      simp only [hfind] at hok
      have hpred0 := List.find?_some hfind
      have hpe : existing.id = productId := by
        have hpred : (existing.id == productId) = true := hpred0
        exact beq_iff_eq.mp hpred
      split_ifs at hok
      all_goals simp [hpred0] at hok
      all_goals rw [← hok]

/-! ### C5 -/

/-- C5: createProduct rejects a submission whose count of non-empty image
files is zero or above three; uploadImage fails any file over 3 MB or of a
type other than JPEG/PNG/WebP; and a successfully created product stores
between 1 and 3 image URLs, each from a file of at most 3 MB. -/
theorem createProduct_image_limits
    (input : ProductInput) (images : List ImageFile) (newId : String) (now : Nat)
    (db : DB) (file : ImageFile) :
    (((images.filter (fun f => 0 < f.size)).length = 0 ∨
        3 < (images.filter (fun f => 0 < f.size)).length) →
      (createProduct input images newId now db).2.isError = true)
    ∧ (3 * 1024 * 1024 < file.size →
        uploadImage file =
          { url := "", success := false, error := some "File size must be less than 3MB" })
    ∧ (file.type ∉ allowedImageTypes → (uploadImage file).success = false)
    ∧ (∀ row, (createProduct input images newId now db).2 = .ok row →
        1 ≤ row.images.length ∧ row.images.length ≤ 3 ∧
        ∀ f ∈ images.filter (fun f => 0 < f.size), f.size ≤ 3 * 1024 * 1024) := by
  refine ⟨?_, ?_, ?_, ?_⟩
  · intro h
    cases heq : productSchemaError input with
    | some msg => simp [createProduct, heq, ActionResult.isError]
    | none =>
      rcases h with h0 | h3
      · have hemp : (images.filter (fun f => 0 < f.size)).isEmpty = true := by
          rw [List.isEmpty_iff]
          exact List.length_eq_zero.mp h0
        simp [createProduct, heq, hemp, ActionResult.isError]
      · have hemp : (images.filter (fun f => 0 < f.size)).isEmpty = false := by
          rw [List.isEmpty_eq_false]
          intro hnil
          rw [hnil] at h3
          simp at h3
        simp [createProduct, heq, hemp, h3, ActionResult.isError]
  · intro h
    unfold uploadImage
    rw [if_pos h]
  · intro h
    unfold uploadImage
    split_ifs with h1 h2
    · rfl
    · rfl
    · exfalso
      have hx : allowedImageTypes.any (fun t => t == file.type) = true := by
        cases hy : allowedImageTypes.any (fun t => t == file.type)
        · rw [hy] at h2
          simp at h2
        · rfl
      obtain ⟨t, ht, hte⟩ := List.any_eq_true.mp hx
      rw [beq_iff_eq] at hte
      exact h (hte ▸ ht)
  · intro row hok
    obtain ⟨-, hrow, hemp, hlen, hfail⟩ := createProduct_ok_shape _ _ _ _ _ _ hok
    obtain ⟨hmap, hall⟩ := uploadMultiple_all_ok _ hfail
    have hlength : row.images.length = (images.filter (fun f => 0 < f.size)).length := by
      rw [hrow]
      simp [hmap]
    refine ⟨?_, ?_, ?_⟩
    · rw [hlength]
      have : (images.filter (fun f => 0 < f.size)).length ≠ 0 := by
        intro hz
        rw [List.isEmpty_eq_false] at hemp
        exact hemp (List.length_eq_zero.mp hz)
      omega
    · rw [hlength]
      omega
    · intro f hf
      exact uploadImage_success_size f (hall f hf)

/-- Witness for C5: a submission with no image files is rejected, and a file
one byte over 3 MB fails to upload. -/
theorem createProduct_image_limits_witness :
    (createProduct input3 [] "prod-w5" 10 emptyDB).2.isError = true
    ∧ uploadImage bigImage =
        { url := "", success := false, error := some "File size must be less than 3MB" } :=
  ⟨(createProduct_image_limits input3 [] "prod-w5" 10 emptyDB bigImage).1 (Or.inl rfl),
   (createProduct_image_limits input3 [] "prod-w5" 10 emptyDB bigImage).2.1 (by decide)⟩

/-! ### C7 -/

/-- C7: the product schema asserts price at least 1: any submitted price not
greater than zero makes createProduct (and updateProduct) return a validation
failure without touching the database, and every successfully created or
updated product row has a strictly positive price. -/
theorem product_price_validation
    (input : ProductInput) (images : List ImageFile) (newId : String) (now : Nat)
    (db : DB) (productId : String) (newImages : List ImageFile) (removed : List String) :
    (input.price ≤ 0 →
      (createProduct input images newId now db).2.isError = true
      ∧ (createProduct input images newId now db).1 = db
      ∧ (updateProduct productId input newImages removed now db).2.isError = true
      ∧ (updateProduct productId input newImages removed now db).1 = db)
    ∧ (∀ row, (createProduct input images newId now db).2 = .ok row → 0 < row.price)
    ∧ (∀ row, (updateProduct productId input newImages removed now db).2 = .ok row →
        0 < row.price) := by
  refine ⟨?_, ?_, ?_⟩
  · intro hp
    cases heq : productSchemaError input with
    | none =>
      have := productSchemaError_none_imp input heq
      omega
    | some msg =>
      refine ⟨?_, ?_, ?_, ?_⟩ <;> simp [createProduct, updateProduct, heq, ActionResult.isError]
  · intro row hok
    obtain ⟨hnone, hrow, -, -, -⟩ := createProduct_ok_shape _ _ _ _ _ _ hok
    have := productSchemaError_none_imp input hnone
    have h2 : row.price = input.price := by rw [hrow]
    omega
  · intro row hok
    obtain ⟨hnone, hrow⟩ := updateProduct_ok_price _ _ _ _ _ _ _ hok
    have := productSchemaError_none_imp input hnone
    omega

/-- Witness for C7: a zero price is rejected by createProduct. -/
theorem product_price_validation_witness :
    (createProduct input7 [image3] "prod-w7" 10 emptyDB).2.isError = true :=
  ((product_price_validation input7 [image3] "prod-w7" 10 emptyDB "x" [] []).1
    (by decide)).1

theorem cartLines_nil_iff (db : DB) (uid : String)
    (hRI : ∀ c ∈ db.cart, ∃ p ∈ db.products, p.id = c.productId) :
    cartLines db uid = [] ↔ buyerCart db uid = [] := by
  constructor
  · intro h
    cases hbc : buyerCart db uid with
    | nil => rfl
    | cons c cs =>
      exfalso
      have hc : c ∈ buyerCart db uid := by
        rw [hbc]
        exact List.mem_cons_self c cs
      have hcc : c ∈ db.cart := (List.mem_filter.mp hc).1
      obtain ⟨p, hpmem, hpid⟩ := hRI c hcc
      have hline : (c, p) ∈ cartLines db uid := by
        unfold cartLines
        rw [List.mem_flatMap]
        refine ⟨c, hc, ?_⟩
        rw [List.mem_map]
        refine ⟨p, ?_, rfl⟩
        rw [List.mem_filter]
        exact ⟨hpmem, by rw [beq_iff_eq]; exact hpid⟩
      rw [h] at hline
      cases hline
  · intro h
    unfold cartLines
    rw [h]
    rfl

theorem cartLines_inactive_iff (db : DB) (uid : String) :
    (cartLines db uid).any (fun cp => !cp.2.isActive) = true ↔
      ∃ c ∈ buyerCart db uid, ∃ p ∈ db.products,
        p.id = c.productId ∧ p.isActive = false := by
  rw [List.any_eq_true]
  constructor
  · rintro ⟨cp, hmem, hact⟩
    unfold cartLines at hmem
    obtain ⟨c, hc, h2⟩ := List.mem_flatMap.mp hmem
    obtain ⟨p, hp, heq⟩ := List.mem_map.mp h2
    obtain ⟨hpmem, hpid⟩ := List.mem_filter.mp hp
    refine ⟨c, hc, p, hpmem, beq_iff_eq.mp hpid, ?_⟩
    rw [← heq] at hact
    simpa using hact
  · rintro ⟨c, hc, p, hpmem, hpid, hact⟩
    refine ⟨(c, p), ?_, by simp [hact]⟩
    unfold cartLines
    rw [List.mem_flatMap]
    refine ⟨c, hc, ?_⟩
    rw [List.mem_map]
    exact ⟨p, List.mem_filter.mpr ⟨hpmem, beq_iff_eq.mpr hpid⟩, rfl⟩

theorem orderItemsOf_map_snapshot (lines : List (CartRow × ProductRow)) (oid : String)
    (now : Nat) :
    (orderItemsOf lines oid now).map
        (fun it => (it.orderId, it.productId, it.quantity, it.price, it.productName)) =
      lines.map (fun cp => (oid, cp.1.productId, cp.1.quantity, cp.2.price, cp.2.name)) := by
  have h1 : (orderItemsOf lines oid now).map
      (fun it => (it.orderId, it.productId, it.quantity, it.price, it.productName)) =
      lines.enum.map
        ((fun cp => (oid, cp.1.productId, cp.1.quantity, cp.2.price, cp.2.name)) ∘ Prod.snd) := by
    unfold orderItemsOf
    rw [List.map_map]
    exact List.map_congr_left (fun e _ => rfl)
  rw [h1, ← List.map_map, List.enum_map_snd]

/-! ### C2 -/

/-- C2: createOrder throws, leaving every table untouched, exactly when the
session is not an authenticated buyer, the buyer's cart is empty, or some
cart line's product is inactive (stated under the schema's referential
integrity: every cart row references an existing product); under an
authenticated buyer session with a non-empty all-active cart none of the
rejections fires. -/
theorem createOrder_rejection_characterization (sess : Session) (odata : OrderData)
    (oid onum : String) (now : Nat) (db : DB)
    (hRI : ∀ c ∈ db.cart, ∃ p ∈ db.products, p.id = c.productId) :
    ((createOrder sess odata oid onum now db).2.isError = true ↔
      (sess.isLoggedIn = false ∨ sess.role ≠ "buyer" ∨ buyerCart db sess.userId = [] ∨
        ∃ c ∈ buyerCart db sess.userId, ∃ p ∈ db.products,
          p.id = c.productId ∧ p.isActive = false))
    ∧ ((createOrder sess odata oid onum now db).2.isError = true →
        (createOrder sess odata oid onum now db).1 = db) := by
  have herr : ((createOrder sess odata oid onum now db).2.isError = true ↔
      createOrderChecks sess db ≠ none) := by
    unfold createOrder
    cases hc : createOrderChecks sess db <;> simp [ActionResult.isError]
  have hunch : (createOrder sess odata oid onum now db).2.isError = true →
      (createOrder sess odata oid onum now db).1 = db := by
    intro h
    rw [herr] at h
    unfold createOrder
    cases hc : createOrderChecks sess db with
    | some msg => rfl
    | none => exact absurd hc h
  refine ⟨?_, hunch⟩
  rw [herr]
  have hchk : createOrderChecks sess db ≠ none ↔
      (sess.isLoggedIn = false ∨ sess.role ≠ "buyer" ∨ cartLines db sess.userId = [] ∨
        (cartLines db sess.userId).any (fun cp => !cp.2.isActive) = true) := by
    unfold createOrderChecks
    cases hb : sess.isLoggedIn with
    | false => simp [hb]
    | true =>
      by_cases h2 : sess.role = "buyer"
      · by_cases h3 : cartLines db sess.userId = []
        · simp [hb, h2, h3]
        · by_cases h4 : (cartLines db sess.userId).any (fun cp => !cp.2.isActive) = true
          · simp [hb, h2, h3, h4, List.isEmpty_iff]
          · simp [hb, h2, h3, h4, List.isEmpty_iff]
      · simp [hb, h2]
  rw [hchk, cartLines_nil_iff db sess.userId hRI, cartLines_inactive_iff db sess.userId]

/-- Witness for C2: without a login the order is rejected. -/
theorem createOrder_rejection_characterization_witness :
    (createOrder { sessB with isLoggedIn := false } od1 "ord-w2" "RT-W2" 9 db1).2.isError
      = true :=
  ((createOrder_rejection_characterization { sessB with isLoggedIn := false } od1
      "ord-w2" "RT-W2" 9 db1 (by decide)).1).mpr (Or.inl rfl)

/-! ### C1 -/

/-- C1: for an authenticated buyer whose cart lines are non-empty and all
active, createOrder passes its checks and then performs exactly three write
round trips in order: first insert one order row (status pending, totalAmount
the sum of price times quantity over the cart lines), then insert one
order-item row per cart line snapshotting the product's name and price, then
delete exactly the buyer's cart rows — and the state after a failure between
round trips (`createOrderUpTo`) keeps every earlier insert: no rollback. -/
theorem createOrder_inserts_then_clears (sess : Session) (odata : OrderData)
    (oid onum : String) (now : Nat) (db : DB)
    (hLog : sess.isLoggedIn = true) (hRole : sess.role = "buyer")
    (hNE : cartLines db sess.userId ≠ [])
    (hAct : ∀ cp ∈ cartLines db sess.userId, cp.2.isActive = true) :
    createOrderChecks sess db = none
    ∧ (newOrderRow sess odata oid onum now db).totalAmount =
        ((cartLines db sess.userId).map (fun cp => cp.2.price * cp.1.quantity)).sum
    ∧ (newOrderRow sess odata oid onum now db).status = OrderStatus.pending
    ∧ createOrderUpTo sess odata oid onum now 1 db =
        { db with orders := db.orders ++ [newOrderRow sess odata oid onum now db] }
    ∧ createOrderUpTo sess odata oid onum now 2 db =
        { db with
          orders := db.orders ++ [newOrderRow sess odata oid onum now db]
          orderItems := db.orderItems ++ orderItemsOf (cartLines db sess.userId) oid now }
    ∧ (orderItemsOf (cartLines db sess.userId) oid now).length =
        (cartLines db sess.userId).length
    ∧ (orderItemsOf (cartLines db sess.userId) oid now).map
        (fun it => (it.orderId, it.productId, it.quantity, it.price, it.productName)) =
      (cartLines db sess.userId).map
        (fun cp => (oid, cp.1.productId, cp.1.quantity, cp.2.price, cp.2.name))
    ∧ createOrder sess odata oid onum now db =
        ({ db with
           orders := db.orders ++ [newOrderRow sess odata oid onum now db]
           orderItems := db.orderItems ++ orderItemsOf (cartLines db sess.userId) oid now
           cart := db.cart.filter (fun c => !(c.buyerId == sess.userId)) },
         .ok (newOrderRow sess odata oid onum now db))
    ∧ createOrderUpTo sess odata oid onum now 3 db =
        (createOrder sess odata oid onum now db).1 := by
  have hany : (cartLines db sess.userId).any (fun cp => !cp.2.isActive) = false := by
    rw [List.any_eq_false]
    intro cp hcp
    simp [hAct cp hcp]
  have hchk : createOrderChecks sess db = none := by
    unfold createOrderChecks
    simp [hLog, hRole, List.isEmpty_eq_false.mpr hNE, hany]
  refine ⟨hchk, rfl, rfl, ?_, ?_, ?_, orderItemsOf_map_snapshot _ _ _, ?_, ?_⟩
  · simp only [createOrderUpTo, hchk]
    rfl
  · simp only [createOrderUpTo, hchk]
    rfl
  · simp [orderItemsOf]
  · simp only [createOrder, hchk]
    rfl
  · simp only [createOrderUpTo, createOrder, hchk]
    rfl

/-- Witness for C1: the first round trip on db1 inserts exactly the new order
row and nothing else. -/
theorem createOrder_inserts_then_clears_witness :
    createOrderUpTo sessB od1 "ord-new" "RT-W1" 9 1 db1 =
      { db1 with orders := db1.orders ++ [newOrderRow sessB od1 "ord-new" "RT-W1" 9 db1] } :=
  (createOrder_inserts_then_clears sessB od1 "ord-new" "RT-W1" 9 db1 rfl rfl
    (by decide) (by decide)).2.2.2.1

theorem mem_eq_of_key_nodup {α β : Type} (key : α → β) {l : List α}
    (hnd : (l.map key).Nodup) {x y : α} (hx : x ∈ l) (hy : y ∈ l)
    (hk : key x = key y) : x = y := by
  induction l with
  | nil => cases hx
  | cons a t ih =>
    rw [List.map_cons, List.nodup_cons] at hnd
    rcases List.mem_cons.mp hx with rfl | hx2
    · rcases List.mem_cons.mp hy with rfl | hy2
      · rfl
      · exact absurd (by rw [hk]; exact List.mem_map_of_mem key hy2) hnd.1
    · rcases List.mem_cons.mp hy with rfl | hy2
      · exact absurd (by rw [← hk]; exact List.mem_map_of_mem key hx2) hnd.1
      · exact ih hnd.2 hx2 hy2

theorem find?_eq_some_of_key_nodup {α β : Type} (key : α → β) (p : α → Bool) {l : List α}
    (hnd : (l.map key).Nodup) {o : α} (ho : o ∈ l) (hp : p o = true)
    (hkey : ∀ x ∈ l, p x = true → key x = key o) : l.find? p = some o := by
  induction l with
  | nil => cases ho
  | cons a t ih =>
    rw [List.map_cons, List.nodup_cons] at hnd
    by_cases hpa : p a = true
    · rw [List.find?_cons_of_pos t hpa]
      rcases List.mem_cons.mp ho with rfl | ho2
      · rfl
      · exact absurd
          (by rw [hkey a (List.mem_cons_self a t) hpa]; exact List.mem_map_of_mem key ho2)
          hnd.1
    · rw [List.find?_cons_of_neg t hpa]
      rcases List.mem_cons.mp ho with rfl | ho2
      · exact absurd hp hpa
      · exact ih hnd.2 ho2 (fun x hx hpx => hkey x (List.mem_cons_of_mem a hx) hpx)

theorem registerUser_tables (input : RegisterInput) (newId : String) (now : Nat) (db : DB) :
    ((registerUser input newId now db).1).orders = db.orders
    ∧ ((registerUser input newId now db).1).cart = db.cart := by
  simp only [registerUser]
  split_ifs <;> exact ⟨rfl, rfl⟩

theorem createProduct_tables (input : ProductInput) (images : List ImageFile)
    (newId : String) (now : Nat) (db : DB) :
    ((createProduct input images newId now db).1).orders = db.orders
    ∧ ((createProduct input images newId now db).1).cart = db.cart := by
  cases h : productSchemaError input with
  | some msg => simp [createProduct, h]
  | none =>
    simp only [createProduct, h]
    split_ifs <;> exact ⟨rfl, rfl⟩

theorem updateProduct_tables (pid : String) (input : ProductInput)
    (newImages : List ImageFile) (removed : List String) (now : Nat) (db : DB) :
    ((updateProduct pid input newImages removed now db).1).orders = db.orders
    ∧ ((updateProduct pid input newImages removed now db).1).cart = db.cart := by
  cases h : productSchemaError input with
  | some msg => simp [updateProduct, h]
  | none =>
    simp only [updateProduct, h]
    cases hf : db.products.find? (fun p => p.id == pid) with
    | none => simp [hf]
    | some existing =>
      simp only [hf]
      split_ifs <;> exact ⟨rfl, rfl⟩

theorem deleteProduct_tables (pid : String) (db : DB) :
    ((deleteProduct pid db).1).orders = db.orders
    ∧ (((deleteProduct pid db).1).cart = db.cart ∨
        ((deleteProduct pid db).1).cart =
          db.cart.filter (fun c => !(c.productId == pid))) := by
  unfold deleteProduct
  cases hf : db.products.find? (fun p => p.id == pid) with
  | none => exact ⟨rfl, Or.inl rfl⟩
  | some p0 => exact ⟨rfl, Or.inr rfl⟩

theorem toggleProductStatus_tables (pid : String) (now : Nat) (db : DB) :
    ((toggleProductStatus pid now db).1).orders = db.orders
    ∧ ((toggleProductStatus pid now db).1).cart = db.cart := by
  unfold toggleProductStatus
  cases hf : db.products.find? (fun p => p.id == pid) with
  | none => exact ⟨rfl, rfl⟩
  | some p0 => exact ⟨rfl, rfl⟩

theorem addToCart_orders (sess : Session) (pid : String) (qty : Int) (newId : String)
    (now : Nat) (db : DB) :
    ((addToCart sess pid qty newId now db).1).orders = db.orders := by
  unfold addToCart
  split_ifs with h1 h2
  · rfl
  · rfl
  · cases hf : db.products.find? (fun p => p.id == pid && p.isActive) with
    | none => rfl
    | some p0 =>
      cases hc : db.cart.find? (fun c => c.buyerId == sess.userId && c.productId == pid) with
      | none => rfl
      | some c0 => rfl

theorem updateCartItem_tables (sess : Session) (cid : String) (qty : Int) (db : DB) :
    ((updateCartItem sess cid qty db).1).orders = db.orders
    ∧ (((updateCartItem sess cid qty db).1).cart = db.cart ∨
        ((updateCartItem sess cid qty db).1).cart =
          db.cart.map (fun c => if c.id == cid then { c with quantity := qty } else c)) := by
  unfold updateCartItem
  split_ifs with h1 h2
  · exact ⟨rfl, Or.inl rfl⟩
  · exact ⟨rfl, Or.inl rfl⟩
  · cases hc : db.cart.find? (fun c => c.id == cid && c.buyerId == sess.userId) with
    | none => exact ⟨rfl, Or.inl rfl⟩
    | some c0 => exact ⟨rfl, Or.inr rfl⟩

theorem removeFromCart_tables (sess : Session) (cid : String) (db : DB) :
    ((removeFromCart sess cid db).1).orders = db.orders
    ∧ (((removeFromCart sess cid db).1).cart = db.cart ∨
        ((removeFromCart sess cid db).1).cart =
          db.cart.filter (fun c => !(c.id == cid))) := by
  unfold removeFromCart
  split_ifs with h1
  · exact ⟨rfl, Or.inl rfl⟩
  · cases hc : db.cart.find? (fun c => c.id == cid && c.buyerId == sess.userId) with
    | none => exact ⟨rfl, Or.inl rfl⟩
    | some c0 => exact ⟨rfl, Or.inr rfl⟩

theorem clearCart_tables (sess : Session) (db : DB) :
    ((clearCart sess db).1).orders = db.orders
    ∧ (((clearCart sess db).1).cart = db.cart ∨
        ((clearCart sess db).1).cart =
          db.cart.filter (fun c => !(c.buyerId == sess.userId))) := by
  unfold clearCart
  split_ifs with h1
  · exact ⟨rfl, Or.inl rfl⟩
  · exact ⟨rfl, Or.inr rfl⟩

theorem createOrder_tables (sess : Session) (odata : OrderData) (oid onum : String)
    (now : Nat) (db : DB) :
    (((createOrder sess odata oid onum now db).1).orders = db.orders
      ∨ ((createOrder sess odata oid onum now db).1).orders =
          db.orders ++ [newOrderRow sess odata oid onum now db])
    ∧ (((createOrder sess odata oid onum now db).1).cart = db.cart ∨
        ((createOrder sess odata oid onum now db).1).cart =
          db.cart.filter (fun c => !(c.buyerId == sess.userId))) := by
  unfold createOrder
  cases hc : createOrderChecks sess db with
  | some msg => exact ⟨Or.inl rfl, Or.inl rfl⟩
  | none => exact ⟨Or.inr rfl, Or.inr rfl⟩

theorem createOrder_new_status (sess : Session) (odata : OrderData) (oid onum : String)
    (now : Nat) (db : DB) :
    (newOrderRow sess odata oid onum now db).status = OrderStatus.pending := rfl

theorem cancelOrder_shape (sess : Session) (oid : String) (db : DB) :
    (cancelOrder sess oid db).1 = db ∨
    (∃ o0 ∈ db.orders, o0.id = oid ∧ o0.buyerId = sess.userId ∧
      o0.status = OrderStatus.pending ∧
      (cancelOrder sess oid db).1.orders = db.orders.map (fun o2 =>
        if o2.id == oid then { o2 with status := OrderStatus.cancelled } else o2) ∧
      (cancelOrder sess oid db).1.cart = db.cart) := by
  unfold cancelOrder
  cases hf : db.orders.find? (fun o => o.id == oid && o.buyerId == sess.userId) with
  | none => exact Or.inl rfl
  | some o0 =>
    dsimp only
    have hp := List.find?_some hf
    rw [Bool.and_eq_true, beq_iff_eq, beq_iff_eq] at hp
    by_cases hst : o0.status = OrderStatus.pending
    · rw [if_pos hst]
      exact Or.inr ⟨o0, List.mem_of_find?_eq_some hf, hp.1, hp.2, hst, rfl, rfl⟩
    · rw [if_neg hst]
      exact Or.inl rfl

theorem nodup_of_cart_eq {db db' : DB} (h : db'.cart = db.cart)
    (hU : (cartKeys db).Nodup) : (cartKeys db').Nodup := by
  unfold cartKeys at *
  rw [h]
  exact hU

theorem nodup_of_cart_filter {db db' : DB} (p : CartRow → Bool)
    (h : db'.cart = db.cart.filter p) (hU : (cartKeys db).Nodup) :
    (cartKeys db').Nodup := by
  unfold cartKeys at *
  rw [h]
  exact List.Nodup.sublist ((List.filter_sublist db.cart).map _) hU

theorem nodup_of_cart_keymap {db db' : DB} (f : CartRow → CartRow)
    (hf : ∀ c, (f c).buyerId = c.buyerId ∧ (f c).productId = c.productId)
    (h : db'.cart = db.cart.map f) (hU : (cartKeys db).Nodup) :
    (cartKeys db').Nodup := by
  unfold cartKeys at *
  rw [h, List.map_map]
  have he : db.cart.map ((fun c => (c.buyerId, c.productId)) ∘ f) =
      db.cart.map (fun c => (c.buyerId, c.productId)) :=
    List.map_congr_left (fun c _ => by
      simp only [Function.comp_apply, (hf c).1, (hf c).2])
  rw [he]
  exact hU

theorem nodup_of_cart_insert {db db' : DB} (c1 : CartRow)
    (h : db'.cart = db.cart ++ [c1])
    (hfresh : ∀ c ∈ db.cart, ¬(c.buyerId = c1.buyerId ∧ c.productId = c1.productId))
    (hU : (cartKeys db).Nodup) : (cartKeys db').Nodup := by
  unfold cartKeys at *
  rw [h, List.map_append, List.nodup_append]
  refine ⟨hU, List.nodup_singleton _, ?_⟩
  intro k hk1 hk2
  rw [List.map_singleton, List.mem_singleton] at hk2
  obtain ⟨c, hc, hkeq⟩ := List.mem_map.mp hk1
  subst hk2
  have h1 := congrArg Prod.fst hkeq
  have h2 := congrArg Prod.snd hkeq
  exact hfresh c hc ⟨h1, h2⟩

theorem addToCart_update_branch (sess : Session) (pid : String) (qty : Int)
    (newId : String) (now : Nat) (db : DB) (p0 : ProductRow) (c0 : CartRow)
    (hLog : sess.isLoggedIn = true) (hRole : sess.role = "buyer")
    (hf : db.products.find? (fun p => p.id == pid && p.isActive) = some p0)
    (hc : db.cart.find? (fun c => c.buyerId == sess.userId && c.productId == pid) = some c0) :
    (addToCart sess pid qty newId now db).1.cart = db.cart.map (fun c =>
      if c.id == c0.id then { c with quantity := c0.quantity + qty, addedAt := now }
      else c) := by
  unfold addToCart
  rw [if_neg (by simp [hLog]), if_neg (by simp [hRole])]
  simp only [hf]
  simp only [hc]

theorem addToCart_insert_branch (sess : Session) (pid : String) (qty : Int)
    (newId : String) (now : Nat) (db : DB) (p0 : ProductRow)
    (hLog : sess.isLoggedIn = true) (hRole : sess.role = "buyer")
    (hf : db.products.find? (fun p => p.id == pid && p.isActive) = some p0)
    (hc : db.cart.find? (fun c => c.buyerId == sess.userId && c.productId == pid) = none) :
    (addToCart sess pid qty newId now db).1.cart = db.cart ++
      [{ id := newId, buyerId := sess.userId, productId := pid,
         quantity := qty, addedAt := now }] := by
  unfold addToCart
  rw [if_neg (by simp [hLog]), if_neg (by simp [hRole])]
  simp only [hf]
  simp only [hc]

theorem addToCart_cart_shape (sess : Session) (pid : String) (qty : Int)
    (newId : String) (now : Nat) (db : DB) :
    (addToCart sess pid qty newId now db).1.cart = db.cart
    ∨ (∃ c0 ∈ db.cart,
        (addToCart sess pid qty newId now db).1.cart = db.cart.map (fun c =>
          if c.id == c0.id then { c with quantity := c0.quantity + qty, addedAt := now }
          else c))
    ∨ ((∀ c ∈ db.cart, ¬(c.buyerId = sess.userId ∧ c.productId = pid)) ∧
        (addToCart sess pid qty newId now db).1.cart = db.cart ++
          [{ id := newId, buyerId := sess.userId, productId := pid,
             quantity := qty, addedAt := now }]) := by
  unfold addToCart
  split_ifs with h1 h2
  · exact Or.inl rfl
  · exact Or.inl rfl
  · cases hf : db.products.find? (fun p => p.id == pid && p.isActive) with
    | none => exact Or.inl rfl
    | some p0 =>
      dsimp only
      cases hc : db.cart.find? (fun c => c.buyerId == sess.userId && c.productId == pid) with
      | none =>
        dsimp only
        refine Or.inr (Or.inr ⟨?_, rfl⟩)
        intro c hcmem hcp
        have hnone := List.find?_eq_none.mp hc c hcmem
        apply hnone
        rw [Bool.and_eq_true, beq_iff_eq, beq_iff_eq]
        exact hcp
      | some c0 =>
        dsimp only
        exact Or.inr (Or.inl ⟨c0, List.mem_of_find?_eq_some hc, rfl⟩)

/-! ### C8 -/

/-- C8: across every database-mutating operation the cart keeps at most one
row per (buyer, product) pair; addToCart on a product already in the buyer's
cart bumps that row's quantity by the requested amount and refreshes addedAt
without inserting, and inserts a new row exactly when no row for the pair
exists. -/
theorem cart_product_uniqueness (op : Op) (db : DB) (hU : (cartKeys db).Nodup)
    (sess : Session) (pid : String) (qty : Int) (newId : String) (now : Nat) :
    (cartKeys (applyOp op db)).Nodup
    ∧ (sess.isLoggedIn = true → sess.role = "buyer" →
        (∃ p ∈ db.products, p.id = pid ∧ p.isActive = true) →
        ((∀ c0, c0 ∈ db.cart → c0.buyerId = sess.userId → c0.productId = pid →
            (addToCart sess pid qty newId now db).1.cart = db.cart.map (fun c =>
              if c.id = c0.id then { c with quantity := c0.quantity + qty, addedAt := now }
              else c)
            ∧ ((addToCart sess pid qty newId now db).1.cart).length = db.cart.length)
          ∧ ((∀ c ∈ db.cart, ¬(c.buyerId = sess.userId ∧ c.productId = pid)) →
            (addToCart sess pid qty newId now db).1.cart = db.cart ++
              [{ id := newId, buyerId := sess.userId, productId := pid,
                 quantity := qty, addedAt := now }]))) := by
  have hbeh : sess.isLoggedIn = true → sess.role = "buyer" →
      (∃ p ∈ db.products, p.id = pid ∧ p.isActive = true) →
      ((∀ c0, c0 ∈ db.cart → c0.buyerId = sess.userId → c0.productId = pid →
          (addToCart sess pid qty newId now db).1.cart = db.cart.map (fun c =>
            if c.id = c0.id then { c with quantity := c0.quantity + qty, addedAt := now }
            else c)
          ∧ ((addToCart sess pid qty newId now db).1.cart).length = db.cart.length)
        ∧ ((∀ c ∈ db.cart, ¬(c.buyerId = sess.userId ∧ c.productId = pid)) →
          (addToCart sess pid qty newId now db).1.cart = db.cart ++
            [{ id := newId, buyerId := sess.userId, productId := pid,
               quantity := qty, addedAt := now }])) := by
    intro hLog hRole hprod
    have hfp : ∃ p0, db.products.find? (fun p => p.id == pid && p.isActive) = some p0 := by
      obtain ⟨p, hp, hid, hact⟩ := hprod
      have hs : (db.products.find? (fun p => p.id == pid && p.isActive)).isSome :=
        List.find?_isSome.mpr ⟨p, hp, by
          rw [Bool.and_eq_true, beq_iff_eq]
          exact ⟨hid, hact⟩⟩
      exact Option.isSome_iff_exists.mp hs
    obtain ⟨p0, hf⟩ := hfp
    constructor
    · intro c0 hc0 hb hpid2
      have hcfind : db.cart.find? (fun c => c.buyerId == sess.userId && c.productId == pid)
          = some c0 := by
        apply find?_eq_some_of_key_nodup (fun c => (c.buyerId, c.productId)) _
          (by simpa [cartKeys] using hU) hc0
        · rw [Bool.and_eq_true, beq_iff_eq, beq_iff_eq]
          exact ⟨hb, hpid2⟩
        · intro x hx hpx
          rw [Bool.and_eq_true, beq_iff_eq, beq_iff_eq] at hpx
          rw [hpx.1, hpx.2, hb, hpid2]
      have hmap := addToCart_update_branch sess pid qty newId now db p0 c0 hLog hRole hf hcfind
      constructor
      · rw [hmap]
        apply List.map_congr_left
        intro c _
        by_cases hcc : c.id = c0.id
        · simp [hcc]
        · simp [hcc]
      · rw [hmap, List.length_map]
    · intro hno
      have hcnone : db.cart.find? (fun c => c.buyerId == sess.userId && c.productId == pid)
          = none := by
        rw [List.find?_eq_none]
        intro c hcmem hcp
        rw [Bool.and_eq_true, beq_iff_eq, beq_iff_eq] at hcp
        exact hno c hcmem hcp
      exact addToCart_insert_branch sess pid qty newId now db p0 hLog hRole hf hcnone
  refine ⟨?_, hbeh⟩
  cases op with
  | register input newId2 now2 =>
    exact nodup_of_cart_eq (registerUser_tables input newId2 now2 db).2 hU
  | createProd input images newId2 now2 =>
    exact nodup_of_cart_eq (createProduct_tables input images newId2 now2 db).2 hU
  | updateProd pid2 input newImages removed now2 =>
    exact nodup_of_cart_eq (updateProduct_tables pid2 input newImages removed now2 db).2 hU
  | deleteProd pid2 =>
    rcases (deleteProduct_tables pid2 db).2 with h | h
    · exact nodup_of_cart_eq h hU
    · exact nodup_of_cart_filter _ h hU
  | toggleStatus pid2 now2 =>
    exact nodup_of_cart_eq (toggleProductStatus_tables pid2 now2 db).2 hU
  | addItem sess2 pid2 qty2 newId2 now2 =>
    rcases addToCart_cart_shape sess2 pid2 qty2 newId2 now2 db with h | ⟨c0, _, h⟩ | ⟨hfresh, h⟩
    · exact nodup_of_cart_eq h hU
    · refine nodup_of_cart_keymap _ ?_ h hU
      intro c
      by_cases hcc : (c.id == c0.id) = true
      · rw [if_pos hcc]
        exact ⟨rfl, rfl⟩
      · rw [if_neg hcc]
        exact ⟨rfl, rfl⟩
    · exact nodup_of_cart_insert _ h hfresh hU
  | updateItem sess2 cid2 qty2 =>
    rcases (updateCartItem_tables sess2 cid2 qty2 db).2 with h | h
    · exact nodup_of_cart_eq h hU
    · refine nodup_of_cart_keymap _ ?_ h hU
      intro c
      by_cases hcc : (c.id == cid2) = true
      · rw [if_pos hcc]
        exact ⟨rfl, rfl⟩
      · rw [if_neg hcc]
        exact ⟨rfl, rfl⟩
  | removeItem sess2 cid2 =>
    rcases (removeFromCart_tables sess2 cid2 db).2 with h | h
    · exact nodup_of_cart_eq h hU
    · exact nodup_of_cart_filter _ h hU
  | clear sess2 =>
    rcases (clearCart_tables sess2 db).2 with h | h
    · exact nodup_of_cart_eq h hU
    · exact nodup_of_cart_filter _ h hU
  | placeOrder sess2 odata oid onum now2 =>
    rcases (createOrder_tables sess2 odata oid onum now2 db).2 with h | h
    · exact nodup_of_cart_eq h hU
    · exact nodup_of_cart_filter _ h hU
  | cancel sess2 oid2 =>
    rcases cancelOrder_shape sess2 oid2 db with h | ⟨o0, _, _, _, _, _, h⟩
    · exact nodup_of_cart_eq (show (cancelOrder sess2 oid2 db).1.cart = db.cart by rw [h]) hU
    · exact nodup_of_cart_eq h hU

/-- Witness for C8: adding prod-A again to buyer-1's cart (which already holds
it) updates the existing row in place, keeping one row. -/
theorem cart_product_uniqueness_witness :
    (cartKeys (applyOp (Op.addItem sessB "prod-A" 1 "cart-2" 7) db1)).Nodup
    ∧ (addToCart sessB "prod-A" 1 "cart-2" 7 db1).1.cart.length = db1.cart.length := by
  have h := cart_product_uniqueness (Op.addItem sessB "prod-A" 1 "cart-2" 7) db1
    (by decide) sessB "prod-A" 1 "cart-2" 7
  refine ⟨h.1, ?_⟩
  exact ((h.2 rfl rfl (by decide)).1 cartA (by decide) rfl rfl).2

/-! ### C4 -/

/-- C4: orders are created with status pending, and across every
database-mutating operation an order's status changes only through
cancelOrder run by the order's own buyer on a pending order (pending becomes
cancelled); cancelOrder on the buyer's non-pending order throws "Only pending
orders can be cancelled" leaving the database unchanged, so cancelled and
confirmed statuses are final.  Stated under the primary-key invariant that
order ids are distinct. -/
theorem order_status_only_cancel (op : Op) (db : DB)
    (hNd : (db.orders.map (fun o => o.id)).Nodup)
    (sess : Session) (oid : String) :
    (∀ o ∈ db.orders, o ∈ (applyOp op db).orders ∨
      (o.status = OrderStatus.pending ∧
        { o with status := OrderStatus.cancelled } ∈ (applyOp op db).orders ∧
        ∃ s, op = Op.cancel s o.id ∧ s.userId = o.buyerId))
    ∧ (∀ o ∈ db.orders, o.status ≠ OrderStatus.pending → o ∈ (applyOp op db).orders)
    ∧ (∀ o ∈ (applyOp op db).orders, (∃ o0 ∈ db.orders, o.id = o0.id) ∨
        o.status = OrderStatus.pending)
    ∧ (∀ o ∈ db.orders, o.id = oid → o.buyerId = sess.userId →
        o.status = OrderStatus.pending →
        (cancelOrder sess oid db).2 = .ok () ∧
        { o with status := OrderStatus.cancelled } ∈ (cancelOrder sess oid db).1.orders)
    ∧ (∀ o ∈ db.orders, o.id = oid → o.buyerId = sess.userId →
        o.status ≠ OrderStatus.pending →
        cancelOrder sess oid db = (db, .error "Only pending orders can be cancelled")) := by
  have hfind : ∀ o ∈ db.orders, o.id = oid → o.buyerId = sess.userId →
      db.orders.find? (fun o2 => o2.id == oid && o2.buyerId == sess.userId) = some o := by
    intro o ho hid hb
    apply find?_eq_some_of_key_nodup (fun o2 => o2.id) _ hNd ho
    · rw [Bool.and_eq_true, beq_iff_eq, beq_iff_eq]
      exact ⟨hid, hb⟩
    · intro x hx hpx
      rw [Bool.and_eq_true, beq_iff_eq, beq_iff_eq] at hpx
      rw [hpx.1, hid]
  have hd : ∀ o ∈ db.orders, o.id = oid → o.buyerId = sess.userId →
      o.status = OrderStatus.pending →
      (cancelOrder sess oid db).2 = .ok () ∧
      { o with status := OrderStatus.cancelled } ∈ (cancelOrder sess oid db).1.orders := by
    intro o ho hid hb hst
    have hf := hfind o ho hid hb
    unfold cancelOrder
    simp only [hf]
    rw [if_pos hst]
    refine ⟨rfl, ?_⟩
    exact List.mem_map.mpr ⟨o, ho, by rw [if_pos (by rw [beq_iff_eq]; exact hid)]⟩
  have he : ∀ o ∈ db.orders, o.id = oid → o.buyerId = sess.userId →
      o.status ≠ OrderStatus.pending →
      cancelOrder sess oid db = (db, .error "Only pending orders can be cancelled") := by
    intro o ho hid hb hst
    have hf := hfind o ho hid hb
    unfold cancelOrder
    simp only [hf]
    rw [if_neg hst]
  have ha : ∀ o ∈ db.orders, o ∈ (applyOp op db).orders ∨
      (o.status = OrderStatus.pending ∧
        { o with status := OrderStatus.cancelled } ∈ (applyOp op db).orders ∧
        ∃ s, op = Op.cancel s o.id ∧ s.userId = o.buyerId) := by
    intro o ho
    cases op with
    | register input newId2 now2 =>
      refine Or.inl ?_
      have hor : (applyOp (Op.register input newId2 now2) db).orders = db.orders :=
        (registerUser_tables input newId2 now2 db).1
      rw [hor]
      exact ho
    | createProd input images newId2 now2 =>
      refine Or.inl ?_
      have hor : (applyOp (Op.createProd input images newId2 now2) db).orders = db.orders :=
        (createProduct_tables input images newId2 now2 db).1
      rw [hor]
      exact ho
    | updateProd pid2 input newImages removed now2 =>
      refine Or.inl ?_
      have hor : (applyOp (Op.updateProd pid2 input newImages removed now2) db).orders
          = db.orders := (updateProduct_tables pid2 input newImages removed now2 db).1
      rw [hor]
      exact ho
    | deleteProd pid2 =>
      refine Or.inl ?_
      have hor : (applyOp (Op.deleteProd pid2) db).orders = db.orders :=
        (deleteProduct_tables pid2 db).1
      rw [hor]
      exact ho
    | toggleStatus pid2 now2 =>
      refine Or.inl ?_
      have hor : (applyOp (Op.toggleStatus pid2 now2) db).orders = db.orders :=
        (toggleProductStatus_tables pid2 now2 db).1
      rw [hor]
      exact ho
    | addItem sess2 pid2 qty2 newId2 now2 =>
      refine Or.inl ?_
      have hor : (applyOp (Op.addItem sess2 pid2 qty2 newId2 now2) db).orders = db.orders :=
        addToCart_orders sess2 pid2 qty2 newId2 now2 db
      rw [hor]
      exact ho
    | updateItem sess2 cid2 qty2 =>
      refine Or.inl ?_
      have hor : (applyOp (Op.updateItem sess2 cid2 qty2) db).orders = db.orders :=
        (updateCartItem_tables sess2 cid2 qty2 db).1
      rw [hor]
      exact ho
    | removeItem sess2 cid2 =>
      refine Or.inl ?_
      have hor : (applyOp (Op.removeItem sess2 cid2) db).orders = db.orders :=
        (removeFromCart_tables sess2 cid2 db).1
      rw [hor]
      exact ho
    | clear sess2 =>
      refine Or.inl ?_
      have hor : (applyOp (Op.clear sess2) db).orders = db.orders :=
        (clearCart_tables sess2 db).1
      rw [hor]
      exact ho
    | placeOrder sess2 odata oid2 onum2 now2 =>
      refine Or.inl ?_
      rcases (createOrder_tables sess2 odata oid2 onum2 now2 db).1 with h | h
      · have hor : (applyOp (Op.placeOrder sess2 odata oid2 onum2 now2) db).orders
            = db.orders := h
        rw [hor]
        exact ho
      · have hor : (applyOp (Op.placeOrder sess2 odata oid2 onum2 now2) db).orders
            = db.orders ++ [newOrderRow sess2 odata oid2 onum2 now2 db] := h
        rw [hor]
        exact List.mem_append_left _ ho
    | cancel sess2 oid2 =>
      rcases cancelOrder_shape sess2 oid2 db with h | ⟨o0, ho0, hid0, hb0, hst0, horders, -⟩
      · refine Or.inl ?_
        have hor : (applyOp (Op.cancel sess2 oid2) db).orders = db.orders := by
          show (cancelOrder sess2 oid2 db).1.orders = db.orders
          rw [h]
        rw [hor]
        exact ho
      · have hor : (applyOp (Op.cancel sess2 oid2) db).orders =
            db.orders.map (fun o2 =>
              if o2.id == oid2 then { o2 with status := OrderStatus.cancelled } else o2) :=
          horders
        by_cases hoid : o.id = oid2
        · have hoo : o = o0 :=
            mem_eq_of_key_nodup (fun o2 => o2.id) hNd ho ho0
              (by show o.id = o0.id; rw [hoid, hid0])
          refine Or.inr ⟨by rw [hoo]; exact hst0, ?_, sess2, by rw [hoid], ?_⟩
          · rw [hor]
            exact List.mem_map.mpr ⟨o, ho, by rw [if_pos (by rw [beq_iff_eq]; exact hoid)]⟩
          · rw [hoo]
            exact hb0.symm
        · refine Or.inl ?_
          rw [hor]
          exact List.mem_map.mpr ⟨o, ho, by rw [if_neg (by simp [hoid])]⟩
  have hcnew : ∀ o ∈ (applyOp op db).orders, (∃ o0 ∈ db.orders, o.id = o0.id) ∨
      o.status = OrderStatus.pending := by
    intro o ho
    cases op with
    | register input newId2 now2 =>
      have hor : (applyOp (Op.register input newId2 now2) db).orders = db.orders :=
        (registerUser_tables input newId2 now2 db).1
      rw [hor] at ho
      exact Or.inl ⟨o, ho, rfl⟩
    | createProd input images newId2 now2 =>
      have hor : (applyOp (Op.createProd input images newId2 now2) db).orders = db.orders :=
        (createProduct_tables input images newId2 now2 db).1
      rw [hor] at ho
      exact Or.inl ⟨o, ho, rfl⟩
    | updateProd pid2 input newImages removed now2 =>
      have hor : (applyOp (Op.updateProd pid2 input newImages removed now2) db).orders
          = db.orders := (updateProduct_tables pid2 input newImages removed now2 db).1
      rw [hor] at ho
      exact Or.inl ⟨o, ho, rfl⟩
    | deleteProd pid2 =>
      have hor : (applyOp (Op.deleteProd pid2) db).orders = db.orders :=
        (deleteProduct_tables pid2 db).1
      rw [hor] at ho
      exact Or.inl ⟨o, ho, rfl⟩
    | toggleStatus pid2 now2 =>
      have hor : (applyOp (Op.toggleStatus pid2 now2) db).orders = db.orders :=
        (toggleProductStatus_tables pid2 now2 db).1
      rw [hor] at ho
      exact Or.inl ⟨o, ho, rfl⟩
    | addItem sess2 pid2 qty2 newId2 now2 =>
      have hor : (applyOp (Op.addItem sess2 pid2 qty2 newId2 now2) db).orders = db.orders :=
        addToCart_orders sess2 pid2 qty2 newId2 now2 db
      rw [hor] at ho
      exact Or.inl ⟨o, ho, rfl⟩
    | updateItem sess2 cid2 qty2 =>
      have hor : (applyOp (Op.updateItem sess2 cid2 qty2) db).orders = db.orders :=
        (updateCartItem_tables sess2 cid2 qty2 db).1
      rw [hor] at ho
      exact Or.inl ⟨o, ho, rfl⟩
    | removeItem sess2 cid2 =>
      have hor : (applyOp (Op.removeItem sess2 cid2) db).orders = db.orders :=
        (removeFromCart_tables sess2 cid2 db).1
      rw [hor] at ho
      exact Or.inl ⟨o, ho, rfl⟩
    | clear sess2 =>
      have hor : (applyOp (Op.clear sess2) db).orders = db.orders :=
        (clearCart_tables sess2 db).1
      rw [hor] at ho
      exact Or.inl ⟨o, ho, rfl⟩
    | placeOrder sess2 odata oid2 onum2 now2 =>
      rcases (createOrder_tables sess2 odata oid2 onum2 now2 db).1 with h | h
      · have hor : (applyOp (Op.placeOrder sess2 odata oid2 onum2 now2) db).orders
            = db.orders := h
        rw [hor] at ho
        exact Or.inl ⟨o, ho, rfl⟩
      · have hor : (applyOp (Op.placeOrder sess2 odata oid2 onum2 now2) db).orders
            = db.orders ++ [newOrderRow sess2 odata oid2 onum2 now2 db] := h
        rw [hor] at ho
        rcases List.mem_append.mp ho with h1 | h1
        · exact Or.inl ⟨o, h1, rfl⟩
        · rw [List.mem_singleton] at h1
          refine Or.inr ?_
          rw [h1]
          rfl
    | cancel sess2 oid2 =>
      rcases cancelOrder_shape sess2 oid2 db with h | ⟨o0, -, -, -, -, horders, -⟩
      · have hor : (applyOp (Op.cancel sess2 oid2) db).orders = db.orders := by
          show (cancelOrder sess2 oid2 db).1.orders = db.orders
          rw [h]
        rw [hor] at ho
        exact Or.inl ⟨o, ho, rfl⟩
      · have hor : (applyOp (Op.cancel sess2 oid2) db).orders =
            db.orders.map (fun o2 =>
              if o2.id == oid2 then { o2 with status := OrderStatus.cancelled } else o2) :=
          horders
        rw [hor] at ho
        obtain ⟨x, hx, hxe⟩ := List.mem_map.mp ho
        refine Or.inl ⟨x, hx, ?_⟩
        rw [← hxe]
        by_cases hxx : (x.id == oid2) = true
        · rw [if_pos hxx]
        · rw [if_neg hxx]
  exact ⟨ha, fun o ho hnp => (ha o ho).resolve_right (fun h => hnp h.1), hcnew, hd, he⟩

/-- Witness for C4: cancelling buyer-1's pending order ord-1 succeeds and the
row becomes cancelled. -/
theorem order_status_only_cancel_witness :
    (cancelOrder sessB "ord-1" db4).2 = .ok ()
    ∧ { orderP with status := OrderStatus.cancelled } ∈ (cancelOrder sessB "ord-1" db4).1.orders :=
  (order_status_only_cancel (Op.cancel sessB "ord-1") db4 (by decide) sessB
    "ord-1").2.2.2.1 orderP (by decide) rfl rfl rfl

/-! ### C6 -/

/-- Counterexample for C6: the claim says every returned product satisfies
every supplied filter, including the price range.  With a supplied price
range whose max is 0 (JS falsy), getProducts ignores the bound: the product
priced 100 is returned although 100 exceeds the supplied maximum 0. -/
theorem getProducts_ignores_zero_price_bound :
    f6.priceRange = some { min := 0, max := 0 }
    ∧ (getProducts db1 f6 1 20).products = [(prodA, seller1)]
    ∧ prodA.price = 100
    ∧ ¬(prodA.price ≤ 0) := by
  decide

/-- C6 (amended): getProducts returns only active products matching the
WHERE conditions as the code builds them — where an empty search string, an
empty category or location list, and a zero price bound (min or max) are
ignored rather than applied — ordered by createdAt descending, with at most
`limit` products, the page being `drop ((page-1)*limit)` then `take limit` of
the sorted matches, and hasMore true exactly when at least one further
matching product lies beyond the page. -/
theorem getProducts_filter_pagination_spec (db : DB) (f : ProductFilters)
    (page limit : Nat) (_hpage : 1 ≤ page) :
    (∀ pu ∈ (getProducts db f page limit).products,
        pu.1.isActive = true ∧ matchesFilters f pu.1 = true)
    ∧ (getProducts db f page limit).products.Pairwise
        (fun a b => b.1.createdAt ≤ a.1.createdAt)
    ∧ (getProducts db f page limit).products.length ≤ limit
    ∧ (getProducts db f page limit).products =
        ((List.insertionSort createdAtDesc (matchingLines db f)).drop
          ((page - 1) * limit)).take limit
    ∧ ((getProducts db f page limit).hasMore = true ↔
        (page - 1) * limit + limit < (matchingLines db f).length) := by
  have hperm := List.perm_insertionSort createdAtDesc (matchingLines db f)
  have hlen : (List.insertionSort createdAtDesc (matchingLines db f)).length =
      (matchingLines db f).length := hperm.length_eq
  have hprod : (getProducts db f page limit).products =
      ((List.insertionSort createdAtDesc (matchingLines db f)).drop
        ((page - 1) * limit)).take limit := by
    unfold getProducts
    dsimp only
    by_cases hm : limit <
        (((List.insertionSort createdAtDesc (matchingLines db f)).drop
          ((page - 1) * limit)).take (limit + 1)).length
    · rw [if_pos hm]
      rw [List.dropLast_eq_take, List.take_take]
      rw [List.length_take] at hm ⊢
      congr 1
      omega
    · rw [if_neg hm]
      rw [List.length_take] at hm
      have hremle : ((List.insertionSort createdAtDesc (matchingLines db f)).drop
          ((page - 1) * limit)).length ≤ limit := by omega
      rw [List.take_of_length_le (le_trans hremle (Nat.le_succ _)),
        List.take_of_length_le hremle]
  have hact : ∀ p, matchesFilters f p = true → p.isActive = true := by
    intro p h
    unfold matchesFilters at h
    repeat rw [Bool.and_eq_true] at h
    exact h.1.1.1.1.1.1
  refine ⟨?_, ?_, ?_, hprod, ?_⟩
  · intro pu hpu
    rw [hprod] at hpu
    have h1 : pu ∈ List.insertionSort createdAtDesc (matchingLines db f) :=
      List.mem_of_mem_drop (List.mem_of_mem_take hpu)
    have h2 : pu ∈ matchingLines db f := hperm.mem_iff.mp h1
    have h3 := (List.mem_filter.mp h2).2
    exact ⟨hact pu.1 h3, h3⟩
  · rw [hprod]
    have hsorted := List.sorted_insertionSort createdAtDesc (matchingLines db f)
    have hsub : (((List.insertionSort createdAtDesc (matchingLines db f)).drop
        ((page - 1) * limit)).take limit).Sublist
        (List.insertionSort createdAtDesc (matchingLines db f)) :=
      (List.take_sublist _ _).trans (List.drop_sublist _ _)
    exact List.Pairwise.sublist hsub hsorted
  · rw [hprod, List.length_take]
    omega
  · unfold getProducts
    dsimp only
    rw [decide_eq_true_eq, List.length_take, List.length_drop, hlen]
    omega

/-- Witness for C6: on db1 with no filters the first page is the drop/take
slice of the sorted matches. -/
theorem getProducts_filter_pagination_spec_witness :
    (getProducts db1 noFilters 1 20).products =
      ((List.insertionSort createdAtDesc (matchingLines db1 noFilters)).drop
        ((1 - 1) * 20)).take 20 :=
  (getProducts_filter_pagination_spec db1 noFilters 1 20 (by decide)).2.2.2.1
